import Mathlib

/-!
The calc-go_V2 web client (`web/static/script.js`).

A shallow embedding of the three event handlers registered by
`web/static/script.js` (submit form, refresh-list button, get-details button)
together with the fragment of ECMAScript they rely on: values decoded from
JSON, `ToBoolean`, `ToString`, property reads, `Array.prototype.forEach`,
`String.prototype.trim` and `JSON.stringify`.

Modelling conventions.
* JavaScript strings are Lean strings (sequences of Unicode scalar values;
  lone surrogates are not represented).
* Numbers are the IEEE 754 binary64 bit patterns; `Number::toString` is the
  shortest decimal that converts back to the number, computed exactly.
* An object is the list of its own properties in enumeration order; objects
  are the plain ones `JSON.parse` builds (prototype `Object.prototype`).
* The network is an input: each handler receives the outcome of the single
  `fetch` it may issue.
* The texts of errors raised by the engine itself are supplied by an
  `Engine` record, since they differ between browsers.
-/

namespace CalcWeb

/-! ## ECMAScript values -/

/-- Number values: the IEEE 754 binary64 bit patterns (sign bit, biased
exponent field, fraction field). -/
structure JSNumber where
  sign : Bool
  exponent : Fin 2048
  fraction : Fin 4503599627370496
  deriving DecidableEq, Repr

namespace JSNumber

/-- Whether the value is `NaN`. -/
def isNaN (x : JSNumber) : Bool := x.exponent.val = 2047 && x.fraction.val ≠ 0

/-- Whether the value is `+Infinity` or `-Infinity`. -/
def isInfinite (x : JSNumber) : Bool := x.exponent.val = 2047 && x.fraction.val = 0

/-- Whether the value is `+0` or `-0`. -/
def isZero (x : JSNumber) : Bool := x.exponent.val = 0 && x.fraction.val = 0

/-- The integer significand `m` of a finite value `m × 2^q`. -/
def significand (x : JSNumber) : Nat :=
  if x.exponent.val = 0 then x.fraction.val else 4503599627370496 + x.fraction.val

/-- The binary exponent `q` of a finite value `m × 2^q`. -/
def binaryExponent (x : JSNumber) : Int :=
  if x.exponent.val = 0 then -1074 else (x.exponent.val : Int) - 1075

end JSNumber

/-- Exact comparison of `a × 10^e10` with `b × 2^e2`. -/
def cmpDecBin (a : Nat) (e10 : Int) (b : Nat) (e2 : Int) : Ordering :=
  compare (a * 10 ^ e10.toNat * 2 ^ (-e2).toNat) (b * 2 ^ e2.toNat * 10 ^ (-e10).toNat)

/-- The integer part of `m × 2^q / 10^e`. -/
def floorScaled (m : Nat) (q e : Int) : Nat :=
  (m * 2 ^ q.toNat * 10 ^ (-e).toNat) / (2 ^ (-q).toNat * 10 ^ e.toNat)

/-- Whether the decimal `s × 10^e` converts back to the finite non-zero
number `x` under round-to-nearest, ties-to-even: it lies between the midpoints
to the neighbouring doubles, the midpoints themselves counting when the
significand of `x` is even. The interval is measured in units of `2^(q-2)`. -/
def roundsTo (x : JSNumber) (s : Nat) (e : Int) : Bool :=
  let m := x.significand
  let q := x.binaryExponent
  let lo := if x.fraction.val = 0 ∧ 1 < x.exponent.val then 4 * m - 1 else 4 * m - 2
  let hi := 4 * m + 2
  let even := m % 2 = 0
  let cl := cmpDecBin s e lo (q - 2)
  let ch := cmpDecBin s e hi (q - 2)
  (cl = .gt || (cl = .eq && even)) && (ch = .lt || (ch = .eq && even))

/-- The least `n` at or above the start with `m × 2^q < 10^n`. -/
def decimalExponentFrom (m : Nat) (q : Int) : Nat → Int → Int
  | 0, n => n
  | fuel + 1, n => if floorScaled m q n = 0 then n else decimalExponentFrom m q fuel (n + 1)

/-- The number of binary digits of `n`, for `n` below `2^fuel`. -/
def bitLength : Nat → Nat → Nat
  | 0, _ => 0
  | fuel + 1, n => if n = 0 then 0 else bitLength fuel (n / 2) + 1

/-- The `n` with `10^(n-1) ≤ m × 2^q < 10^n`, for `0 < m < 2^53`: the search
starts two below the estimate that the bit length of `m` gives. -/
def decimalExponent (m : Nat) (q : Int) : Int :=
  decimalExponentFrom m q 8 ((((bitLength 64 m : Int) - 1 + q) * 30103) / 100000 - 2)

/-- The `k`-digit decimal for `x`, if one converts back to `x`: the digits `s`
and the exponent `n` of `s × 10^(n-k)`. Of the two `k`-digit decimals around
`x` that convert back, the closer one is taken, and the even one on a tie. -/
def digitsOfLength (x : JSNumber) (k : Nat) : Option (Nat × Int) :=
  let m := x.significand
  let q := x.binaryExponent
  let n := decimalExponent m q
  let e := n - k
  let a := floorScaled m q e
  let okLow := decide (10 ^ (k - 1) ≤ a) && roundsTo x a e
  let okHigh := roundsTo x (a + 1) e
  let norm : Nat → Nat × Int := fun s => if s = 10 ^ k then (10 ^ (k - 1), n + 1) else (s, n)
  if okLow && okHigh then
    match cmpDecBin (2 * a + 1) e (8 * m) (q - 2) with
    | .gt => some (norm a)
    | .lt => some (norm (a + 1))
    | .eq => some (norm (if a % 2 = 0 then a else a + 1))
  else if okLow then some (norm a)
  else if okHigh then some (norm (a + 1))
  else none

/-- The shortest decimal that converts back to `x`, trying the lengths from
`k` upwards. -/
def shortestDigits (x : JSNumber) : Nat → Nat → Nat × Int
  | 0, k => (floorScaled x.significand x.binaryExponent
      (decimalExponent x.significand x.binaryExponent - k),
      decimalExponent x.significand x.binaryExponent)
  | fuel + 1, k =>
    match digitsOfLength x k with
    | some r => r
    | none => shortestDigits x fuel (k + 1)

/-- Decimal digits of a natural number, as a status or an exponent is printed. -/
def natToString (n : Nat) : String := Nat.repr n

/-- A run of zeros. -/
def zeros (n : Nat) : String := String.mk (List.replicate n '0')

/-- The layout of the digits `s` (there are `k` of them) with exponent `n`. -/
def layoutDigits (digits : List Char) (n : Int) : String :=
  let k : Int := digits.length
  if k ≤ n ∧ n ≤ 21 then String.mk digits ++ zeros (n - k).toNat
  else if 0 < n ∧ n ≤ 21 then
    String.mk (digits.take n.toNat) ++ "." ++ String.mk (digits.drop n.toNat)
  else if -6 < n ∧ n ≤ 0 then "0." ++ zeros (-n).toNat ++ String.mk digits
  else
    let tail := (if n - 1 < 0 then "e-" else "e+") ++ natToString (n - 1).natAbs
    match digits with
    | [] => tail
    | [d] => String.mk [d] ++ tail
    | d :: ds => String.mk [d] ++ "." ++ String.mk ds ++ tail

/-- The operation `Number::toString` (radix 10). -/
def numberToString (x : JSNumber) : String :=
  if x.isNaN then "NaN"
  else if x.isZero then "0"
  else if x.isInfinite then (if x.sign then "-Infinity" else "Infinity")
  else
    let r := shortestDigits x 17 1
    (if x.sign then "-" else "") ++ layoutDigits (natToString r.1).data r.2

/-- The Number value for a natural number: the nearest double, ties to even
(what `JSON.parse` yields for an integer literal). -/
def JSNumber.ofNat (n : Nat) : JSNumber :=
  if n = 0 then ⟨false, 0, 0⟩
  else
    let b := bitLength (n + 1) n
    if b ≤ 53 then
      ⟨false, ⟨(1022 + b) % 2048, Nat.mod_lt _ (by decide)⟩,
        ⟨(n * 2 ^ (53 - b)) % 4503599627370496, Nat.mod_lt _ (by decide)⟩⟩
    else
      let q := n / 2 ^ (b - 53)
      let r := n % 2 ^ (b - 53)
      let half := 2 ^ (b - 54)
      let m := if half < r ∨ (r = half ∧ q % 2 = 1) then q + 1 else q
      let b1 := if m = 9007199254740992 then b + 1 else b
      if 2047 ≤ 1022 + b1 then ⟨false, 2047, 0⟩
      else
        ⟨false, ⟨(1022 + b1) % 2048, Nat.mod_lt _ (by decide)⟩,
          ⟨m % 4503599627370496, Nat.mod_lt _ (by decide)⟩⟩

/-- The number with the opposite sign. -/
def JSNumber.neg (x : JSNumber) : JSNumber := { x with sign := !x.sign }

/-- ECMAScript language values that can arise from `JSON.parse` and from
reading a property of such a value. -/
inductive JSValue where
  | undefined
  | null
  | bool (b : Bool)
  | num (n : JSNumber)
  | str (s : String)
  | arr (items : List JSValue)
  | obj (props : List (String × JSValue))

deriving instance DecidableEq for Except

/-- An `Error` object, of which the script only ever reads `message`. -/
structure JSError where
  message : String
  deriving DecidableEq, Repr

/-- Browser-specific texts of the `TypeError`s the engine can raise while the
handlers run. -/
structure Engine where
  /-- Reading property `prop` of `undefined` or `null` (`base` names which). -/
  readOfNullish : (base : String) → (prop : String) → String
  /-- Calling something that is not callable; the argument is the callee text. -/
  notAFunction : String → String
  /-- The text for `OrdinaryToPrimitive` finding no primitive. -/
  noPrimitive : String

/-- The texts V8 (Chrome, Node) uses. -/
def v8 : Engine where
  readOfNullish := fun base prop =>
    "Cannot read properties of " ++ base ++ " (reading \'" ++ prop ++ "\')"
  notAFunction := fun callee => callee ++ " is not a function"
  noPrimitive := "Cannot convert object to primitive value"

/-- The operation `ToBoolean`: `undefined`, `null`, `false`, `+0`, `-0`, `NaN` and the
empty string are falsy, everything else (every object and array) is truthy. -/
def truthy : JSValue → Bool
  | .undefined => false
  | .null => false
  | .bool b => b
  | .num x => !(x.isZero || x.isNaN)
  | .str s => decide (s ≠ "")
  | .arr _ => true
  | .obj _ => true

/-- Own-property lookup in a decoded object; `undefined` when absent. -/
def lookupProp (k : String) : List (String × JSValue) → JSValue
  | [] => .undefined
  | (k', v) :: rest => if k' = k then v else lookupProp k rest

/-- Whether a decoded object has an own property named `k`. -/
def hasOwn (k : String) : List (String × JSValue) → Bool
  | [] => false
  | (k', _) :: rest => k' = k || hasOwn k rest

/-- The member access `base.k` for the property names the script reads on
decoded data (`id`, `expression`, `status`, `result`, `expressions`): none of
them is defined on a builtin prototype, so on anything but a plain object the
read gives `undefined`, and on `undefined` or `null` it throws. -/
def getProp (eng : Engine) (base : JSValue) (k : String) : Except JSError JSValue :=
  match base with
  | .undefined => .error ⟨eng.readOfNullish "undefined" k⟩
  | .null => .error ⟨eng.readOfNullish "null" k⟩
  | .obj props => .ok (lookupProp k props)
  | _ => .ok .undefined

mutual
/-- The operation `ToString`, as applied to a template-literal substitution. A plain object
prints as `[object Object]` through the inherited `toString`; an own
(necessarily non-callable) `toString` property shadows it, after which
`valueOf` yields no primitive and a `TypeError` is thrown. An array prints
through `Array.prototype.join`. -/
def toStringJS (eng : Engine) : JSValue → Except JSError String
  | .undefined => .ok "undefined"
  | .null => .ok "null"
  | .bool b => .ok (if b then "true" else "false")
  | .num n => .ok (numberToString n)
  | .str s => .ok s
  | .arr items => joinJS eng items
  | .obj props =>
    if hasOwn "toString" props then .error ⟨eng.noPrimitive⟩ else .ok "[object Object]"
/-- The method `Array.prototype.join` with the default separator. -/
def joinJS (eng : Engine) : List JSValue → Except JSError String
  | [] => .ok ""
  | x :: xs =>
    match joinElem eng x with
    | .error e => .error e
    | .ok s =>
      match joinRest eng xs with
      | .error e => .error e
      | .ok r => .ok (s ++ r)
/-- The elements after the first, each preceded by the separator. -/
def joinRest (eng : Engine) : List JSValue → Except JSError String
  | [] => .ok ""
  | x :: xs =>
    match joinElem eng x with
    | .error e => .error e
    | .ok s =>
      match joinRest eng xs with
      | .error e => .error e
      | .ok r => .ok ("," ++ s ++ r)
/-- One element inside `join`: `undefined` and `null` print as nothing. -/
def joinElem (eng : Engine) : JSValue → Except JSError String
  | .undefined => .ok ""
  | .null => .ok ""
  | .bool b => .ok (if b then "true" else "false")
  | .num n => .ok (numberToString n)
  | .str s => .ok s
  | .arr items => joinJS eng items
  | .obj props =>
    if hasOwn "toString" props then .error ⟨eng.noPrimitive⟩ else .ok "[object Object]"
end

/-! ## `String.prototype.trim` -/

/-- ECMAScript `WhiteSpace` and `LineTerminator` code points, the ones `trim`
strips: TAB, LF, VT, FF, CR, SPACE, NBSP, the other space separators,
LS, PS and ZWNBSP. -/
def isJSWhiteSpace (c : Char) : Bool :=
  let n := c.toNat
  n = 0x09 || n = 0x0A || n = 0x0B || n = 0x0C || n = 0x0D || n = 0x20 || n = 0xA0 ||
  n = 0x1680 || (0x2000 ≤ n && n ≤ 0x200A) || n = 0x2028 || n = 0x2029 || n = 0x202F ||
  n = 0x205F || n = 0x3000 || n = 0xFEFF

/-- The call `s.trim()`: leading and trailing white space removed. -/
def jsTrim (s : String) : String :=
  String.mk (((s.data.dropWhile isJSWhiteSpace).reverse.dropWhile isJSWhiteSpace).reverse)

/-! ## `JSON.stringify` -/

/-- Lower-case hexadecimal digit of a value below 16. -/
def hexDigit (n : Nat) : Char :=
  if n < 10 then Char.ofNat (48 + n) else Char.ofNat (87 + n)

/-- The six-character escape of a code unit: backslash, `u`, four hex digits. -/
def unicodeEscape (n : Nat) : List Char :=
  [Char.ofNat 92, 'u', hexDigit (n / 4096 % 16), hexDigit (n / 256 % 16),
    hexDigit (n / 16 % 16), hexDigit (n % 16)]

/-- One code point inside `QuoteJSONString`: the two-character escapes for
backspace, tab, line feed, form feed, carriage return, the double quote and
the backslash; a unicode escape for the other control characters; every other
code point as itself. -/
def quoteChar (c : Char) : List Char :=
  let n := c.toNat
  if n = 8 then [Char.ofNat 92, 'b']
  else if n = 9 then [Char.ofNat 92, 't']
  else if n = 10 then [Char.ofNat 92, 'n']
  else if n = 12 then [Char.ofNat 92, 'f']
  else if n = 13 then [Char.ofNat 92, 'r']
  else if n = 34 then [Char.ofNat 92, Char.ofNat 34]
  else if n = 92 then [Char.ofNat 92, Char.ofNat 92]
  else if n < 32 then unicodeEscape n
  else [c]

/-- The escaped characters of a whole string, without the enclosing quotes. -/
def quoteChars : List Char → List Char
  | [] => []
  | c :: cs => quoteChar c ++ quoteChars cs

/-- The operation `QuoteJSONString`: the escaped characters between double quotes. -/
def quoteJSONString (s : String) : String :=
  String.mk (Char.ofNat 34 :: (quoteChars s.data ++ [Char.ofNat 34]))

/-- The closing step of `SerializeJSONObject` and `SerializeJSONArray`: the
serialised members between the brackets, on one line when there is no gap and
one per line, indented, when there is. `stepback` is the indentation of the
enclosing level. -/
def wrapJSON (opener closer gap stepback : String) (parts : List String) : String :=
  if parts.isEmpty then opener ++ closer
  else if gap = "" then opener ++ ",".intercalate parts ++ closer
  else
    opener ++ "\n" ++ (stepback ++ gap) ++ (",\n" ++ (stepback ++ gap)).intercalate parts ++
      "\n" ++ stepback ++ closer

mutual
/-- The operation `SerializeJSONProperty` on a decoded value: `none` stands for `undefined`.
Non-finite numbers print as `null`, `-0` as `0`. -/
def serializeJSON (gap indent : String) : JSValue → Option String
  | .undefined => none
  | .null => some "null"
  | .bool b => some (if b then "true" else "false")
  | .num x => some (if x.isNaN || x.isInfinite then "null" else numberToString x)
  | .str s => some (quoteJSONString s)
  | .arr items => some (wrapJSON "[" "]" gap indent (serializeItems gap (indent ++ gap) items))
  | .obj props =>
    some (wrapJSON "\x7b" "\x7d" gap indent (serializeProps gap (indent ++ gap) props))
/-- Array elements: an `undefined` element prints as `null`. -/
def serializeItems (gap indent : String) : List JSValue → List String
  | [] => []
  | x :: xs =>
    (match serializeJSON gap indent x with
      | none => "null"
      | some s => s) :: serializeItems gap indent xs
/-- Object members: a member whose value is `undefined` is left out. -/
def serializeProps (gap indent : String) : List (String × JSValue) → List String
  | [] => []
  | (k, v) :: rest =>
    match serializeJSON gap indent v with
    | none => serializeProps gap indent rest
    | some s =>
      (quoteJSONString k ++ (if gap = "" then ":" else ": ") ++ s) ::
        serializeProps gap indent rest
end

/-- The call `JSON.stringify(value)`. -/
def jsonStringify (v : JSValue) : Option String := serializeJSON "" "" v

/-- The call `JSON.stringify(value, null, 2)`. -/
def jsonStringifyIndent2 (v : JSValue) : Option String := serializeJSON "  " "" v

/-! ## The page and the network -/

/-- One call of `fetch`: the target, and the `method`, `headers` and `body`
of its options argument (a call without options is a body-less `GET`). -/
structure Request where
  method : String
  url : String
  headers : List (String × String)
  body : Option String
  deriving DecidableEq, Repr

/-- What the script can observe of one `fetch`: the promise rejects with an
error carrying `message`, or it resolves to a response with a `status` whose
`json()` either rejects (with the given message) or yields the decoded body. -/
inductive FetchOutcome where
  | rejected (message : String)
  | response (status : Nat) (body : Except String JSValue)

/-- The state the handlers read and write: the two input fields, the children
of the list region (the text of each), the text of the detail region, and the
trace of notifications (`alert`) and of `fetch` calls, oldest first. -/
structure World where
  expressionInput : String
  expressionIdInput : String
  expressionsList : List String
  expressionDetails : String
  alerts : List String
  requests : List Request
  deriving DecidableEq, Repr

/-- The constant `API_BASE_URL`. -/
def API_BASE_URL : String := "http://localhost:8080"

/-- The getter `response.ok`: the status is in the range 200 to 299. -/
def responseOk (status : Nat) : Bool := 200 ≤ status && status ≤ 299

/-- The call `alert(text)`. -/
def alert (text : String) (w : World) : World :=
  { w with alerts := w.alerts ++ [text] }

/-- The call `fetch(...)` as far as the page is concerned: it is recorded. -/
def issue (r : Request) (w : World) : World :=
  { w with requests := w.requests ++ [r] }

/-- The outcome of running a block: how it completed, and the state it left. -/
abbrev Completion := Except JSError Unit × World

/-- The `try ... catch (error) ...` statement: the handler runs on the state
the body left behind when the body threw. -/
def tryCatch (body : Completion) (handler : JSError → World → Completion) : Completion :=
  match body with
  | (.ok _, w) => (.ok (), w)
  | (.error e, w) => handler e w

/-! ## Submit form (`expressionForm`, event `submit`) -/

/-- The request of the submit handler: the `expression` shorthand object,
stringified, posted as JSON. -/
def submitRequest (expression : String) : Request where
  method := "POST"
  url := API_BASE_URL ++ "/api/v1/calculate"
  headers := [("Content-Type", "application/json")]
  body := jsonStringify (.obj [("expression", .str expression)])

/-- The `try` block of the submit handler. -/
def expressionFormTry (eng : Engine) (net : FetchOutcome) (expression : String)
    (w : World) : Completion :=
  let w1 := issue (submitRequest expression) w
  match net with
  | .rejected msg => (.error ⟨msg⟩, w1)
  | .response status body =>
    if !responseOk status then (.error ⟨"Error: " ++ natToString status⟩, w1)
    else
      match body with
      | .error msg => (.error ⟨msg⟩, w1)
      | .ok data =>
        match getProp eng data "id" with
        | .error e => (.error e, w1)
        | .ok id =>
          match toStringJS eng id with
          | .error e => (.error e, w1)
          | .ok s => (.ok (), alert ("Выражение успешно отрпавлено! ID: " ++ s) w1)

/-- The `catch` block of the submit handler. -/
def expressionFormCatch (error : JSError) (w : World) : Completion :=
  (.ok (), alert ("Не удалось отправить выражение: " ++ error.message) w)

/-- The `submit` listener of `expressionForm` (after `e.preventDefault()`). -/
def expressionFormSubmit (eng : Engine) (net : FetchOutcome) (w : World) : Completion :=
  let expression := w.expressionInput
  tryCatch (expressionFormTry eng net expression w) expressionFormCatch

/-! ## Refresh list (`refreshListButton`, event `click`) -/

/-- The request of the refresh handler. -/
def listRequest : Request where
  method := "GET"
  url := API_BASE_URL ++ "/api/v1/expressions"
  headers := []
  body := none

/-- The operand `expr.result || "N/A"`. -/
def resultOrNA (result : JSValue) : JSValue :=
  if truthy result then result else .str "N/A"

/-- The template literal assigned to `listItem.textContent`: each
substitution is read and converted in turn. -/
def listItemText (eng : Engine) (expr : JSValue) : Except JSError String :=
  match getProp eng expr "id" with
  | .error e => .error e
  | .ok id =>
    match toStringJS eng id with
    | .error e => .error e
    | .ok sId =>
      match getProp eng expr "expression" with
      | .error e => .error e
      | .ok expression =>
        match toStringJS eng expression with
        | .error e => .error e
        | .ok sExpression =>
          match getProp eng expr "status" with
          | .error e => .error e
          | .ok status =>
            match toStringJS eng status with
            | .error e => .error e
            | .ok sStatus =>
              match getProp eng expr "result" with
              | .error e => .error e
              | .ok result =>
                match toStringJS eng (resultOrNA result) with
                | .error e => .error e
                | .ok sResult =>
                  .ok ("ID: " ++ sId ++ ", Выражение: " ++ sExpression ++ ", Статус: " ++
                    sStatus ++ ", Результат: " ++ sResult)

/-- The callbacks of `forEach` over the elements, in order: each appends one
item to the list region; the first one that throws ends the loop. -/
def forEachAppend (eng : Engine) : List JSValue → World → Completion
  | [], w => (.ok (), w)
  | expr :: rest, w =>
    match listItemText eng expr with
    | .error e => (.error e, w)
    | .ok text =>
      forEachAppend eng rest { w with expressionsList := w.expressionsList ++ [text] }

/-- The call `data.expressions.forEach(...)` once `data.expressions` is
evaluated: only an array has a callable `forEach`. -/
def expressionsForEach (eng : Engine) (expressions : JSValue) (w : World) : Completion :=
  match expressions with
  | .arr items => forEachAppend eng items w
  | .undefined => (.error ⟨eng.readOfNullish "undefined" "forEach"⟩, w)
  | .null => (.error ⟨eng.readOfNullish "null" "forEach"⟩, w)
  | _ => (.error ⟨eng.notAFunction "data.expressions.forEach"⟩, w)

/-- The `try` block of the refresh handler. -/
def refreshListTry (eng : Engine) (net : FetchOutcome) (w : World) : Completion :=
  let w1 := issue listRequest w
  match net with
  | .rejected msg => (.error ⟨msg⟩, w1)
  | .response status body =>
    if !responseOk status then (.error ⟨"Ошибка: " ++ natToString status⟩, w1)
    else
      match body with
      | .error msg => (.error ⟨msg⟩, w1)
      | .ok data =>
        let w2 := { w1 with expressionsList := [] }
        match getProp eng data "expressions" with
        | .error e => (.error e, w2)
        | .ok expressions => expressionsForEach eng expressions w2

/-- The `catch` block of the refresh handler. -/
def refreshListCatch (error : JSError) (w : World) : Completion :=
  (.ok (), alert ("Не удалось найти выражения: " ++ error.message) w)

/-- The `click` listener of `refreshListButton`. -/
def refreshListButtonClick (eng : Engine) (net : FetchOutcome) (w : World) : Completion :=
  tryCatch (refreshListTry eng net w) refreshListCatch

/-! ## Get details (`getDetailsButton`, event `click`) -/

/-- The request of the details handler. -/
def detailsRequest (expressionId : String) : Request where
  method := "GET"
  url := API_BASE_URL ++ "/api/v1/expressions/" ++ expressionId
  headers := []
  body := none

/-- Assigning to `textContent`: `undefined` is taken as `null`, which empties
the element. -/
def textContentOf : Option String → String
  | none => ""
  | some s => s

/-- The `try` block of the details handler. -/
def getDetailsTry (eng : Engine) (net : FetchOutcome) (expressionId : String)
    (w : World) : Completion :=
  let w1 := issue (detailsRequest expressionId) w
  match net with
  | .rejected msg => (.error ⟨msg⟩, w1)
  | .response status body =>
    if !responseOk status then (.error ⟨"Ошибка: " ++ natToString status⟩, w1)
    else
      match body with
      | .error msg => (.error ⟨msg⟩, w1)
      | .ok data =>
        match getProp eng data "expression" with
        | .error e => (.error e, w1)
        | .ok expression =>
          (.ok (), { w1 with expressionDetails := textContentOf (jsonStringifyIndent2 expression) })

/-- The `catch` block of the details handler. -/
def getDetailsCatch (error : JSError) (w : World) : Completion :=
  (.ok (), alert ("Не удалось найти выражение: " ++ error.message) w)

/-- The `click` listener of `getDetailsButton`. -/
def getDetailsButtonClick (eng : Engine) (net : FetchOutcome) (w : World) : Completion :=
  let expressionId := jsTrim w.expressionIdInput
  if expressionId = "" then
    (.ok (), alert "Пожалуйста, введите ID выражения" w)
  else
    tryCatch (getDetailsTry eng net expressionId w) getDetailsCatch

/-! ## Decoding a JSON text (the service side of the submit request) -/

/-- Value of a hexadecimal digit, either case. -/
def hexValue (c : Char) : Option Nat :=
  let n := c.toNat
  if 48 ≤ n ∧ n ≤ 57 then some (n - 48)
  else if 97 ≤ n ∧ n ≤ 102 then some (n - 87)
  else if 65 ≤ n ∧ n ≤ 70 then some (n - 55)
  else none

/-- The character a two-character JSON escape stands for. -/
def unescapeChar (e : Char) : Option Char :=
  let n := e.toNat
  if n = 34 then some (Char.ofNat 34)
  else if n = 92 then some (Char.ofNat 92)
  else if n = 47 then some (Char.ofNat 47)
  else if e = 'b' then some (Char.ofNat 8)
  else if e = 'f' then some (Char.ofNat 12)
  else if e = 'n' then some (Char.ofNat 10)
  else if e = 'r' then some (Char.ofNat 13)
  else if e = 't' then some (Char.ofNat 9)
  else none

/-- Puts a decoded character in front of the decoded remainder. -/
def consDecoded (c : Char) : Option (List Char × List Char) → Option (List Char × List Char)
  | none => none
  | some (s, rest) => some (c :: s, rest)

/-- Decodes a JSON string literal after its opening quote: the characters up
to the closing quote, and the input left after it. Escapes are resolved; a
raw control character, an unknown escape, an escape of a surrogate code unit
or a missing closing quote is rejected. -/
def parseStringTail : List Char → Option (List Char × List Char)
  | [] => none
  | c :: rest =>
    if c.toNat = 34 then some ([], rest)
    else if c.toNat = 92 then
      match rest with
      | [] => none
      | e :: rest1 =>
        if e = 'u' then
          match rest1 with
          | h1 :: h2 :: h3 :: h4 :: rest2 =>
            match hexValue h1, hexValue h2, hexValue h3, hexValue h4 with
            | some a, some b, some c, some d =>
              if Nat.isValidChar (((a * 16 + b) * 16 + c) * 16 + d) then
                consDecoded (Char.ofNat (((a * 16 + b) * 16 + c) * 16 + d)) (parseStringTail rest2)
              else none
            | _, _, _, _ => none
          | _ => none
        else
          match unescapeChar e with
          | some ch => consDecoded ch (parseStringTail rest1)
          | none => none
    else if c.toNat < 32 then none
    else consDecoded c (parseStringTail rest)


/-- JSON insignificant white space: space, tab, line feed, carriage return. -/
def isJSONSpace (c : Char) : Bool :=
  c.toNat = 32 || c.toNat = 9 || c.toNat = 10 || c.toNat = 13

/-- Drops leading JSON white space. -/
def skipWS (l : List Char) : List Char := l.dropWhile isJSONSpace

/-- Decodes a JSON string literal, opening quote included. -/
def parseStringLit : List Char → Option (String × List Char)
  | [] => none
  | c :: rest =>
    if c.toNat = 34 then
      match parseStringTail rest with
      | none => none
      | some (s, rest1) => some (String.mk s, rest1)
    else none

/-- Decodes the members of an object after its opening brace, up to and
including the closing brace; every member value must be a string literal.
The fuel bounds the number of members. -/
def parseMembers : Nat → List Char → Option (List (String × String) × List Char)
  | 0, _ => none
  | fuel + 1, l =>
    match parseStringLit (skipWS l) with
    | none => none
    | some (k, l1) =>
      match skipWS l1 with
      | [] => none
      | c :: l2 =>
        if c.toNat = 58 then
          match parseStringLit (skipWS l2) with
          | none => none
          | some (v, l3) =>
            match skipWS l3 with
            | [] => none
            | d :: l4 =>
              if d.toNat = 125 then some ([(k, v)], l4)
              else if d.toNat = 44 then
                match parseMembers fuel l4 with
                | none => none
                | some (ms, l5) => some ((k, v) :: ms, l5)
              else none
        else none

/-- Decodes a JSON text that is an object whose member values are all
strings (the shape of the submit request body); any other text is rejected. -/
def parseStringObject (text : String) : Option (List (String × String)) :=
  match skipWS text.data with
  | [] => none
  | c :: l =>
    if c.toNat = 123 then
      match skipWS l with
      | [] => none
      | d :: l1 =>
        if d.toNat = 125 then (if skipWS l1 = [] then some [] else none)
        else
          match parseMembers text.length (d :: l1) with
          | none => none
          | some (ms, l2) => if skipWS l2 = [] then some ms else none
    else none

/-- Reading member `k` of a decoded object: of duplicate names the last one
counts, as in `JSON.parse`. -/
def lastMember (k : String) : List (String × String) → Option String
  | [] => none
  | (k', v) :: rest =>
    match lastMember k rest with
    | some x => some x
    | none => if k' = k then some v else none

/-- Decodes a request body and reads its `expression` member. -/
def decodeExpression (text : String) : Option String :=
  match parseStringObject text with
  | none => none
  | some ms => lastMember "expression" ms

/-- The number 2.5, that is 1.25 × 2^1. -/
def twoAndHalf : JSNumber := ⟨false, 1024, 1125899906842624⟩

/-- A page with stale content in both regions and the identifier `9` typed in. -/
def sampleWorld : World where
  expressionInput := "2+2"
  expressionIdInput := "9"
  expressionsList := ["stale line"]
  expressionDetails := "stale detail"
  alerts := []
  requests := []

/-! ## Lemmas: the JSON round trip -/

theorem parseStringTail_quoteChar_small (n : Nat) (hn : n < 32 ∨ n = 34 ∨ n = 92)
    (tail : List Char) :
    parseStringTail (quoteChar (Char.ofNat n) ++ tail)
      = consDecoded (Char.ofNat n) (parseStringTail tail) := by
  have h93 : n < 93 := by omega
  interval_cases n <;> first
    | (exfalso; omega)
    | (simp [quoteChar, unicodeEscape, hexDigit, parseStringTail, hexValue, unescapeChar]; done)
    | (simp only [quoteChar]
       conv_lhs => unfold parseStringTail
       simp [unescapeChar]
       try rfl)

theorem parseStringTail_quoteChar (c : Char) (tail : List Char) :
    parseStringTail (quoteChar c ++ tail) = consDecoded c (parseStringTail tail) := by
  by_cases h : c.toNat < 32 ∨ c.toNat = 34 ∨ c.toNat = 92
  · have := parseStringTail_quoteChar_small c.toNat h tail
    rwa [Char.ofNat_toNat] at this
  · have h1 : ¬ c.toNat < 32 := fun x => h (Or.inl x)
    have h2 : ¬ c.toNat = 34 := fun x => h (Or.inr (Or.inl x))
    have h3 : ¬ c.toNat = 92 := fun x => h (Or.inr (Or.inr x))
    have hq : quoteChar c = [c] := by
      simp only [quoteChar]
      rw [if_neg (by omega), if_neg (by omega), if_neg (by omega), if_neg (by omega),
        if_neg (by omega), if_neg h2, if_neg h3, if_neg h1]
    rw [hq]
    show parseStringTail (c :: tail) = _
    conv_lhs => unfold parseStringTail
    simp only [if_neg h2, if_neg h3, if_neg h1]

theorem parseStringTail_quoteChars (t rest : List Char) :
    parseStringTail (quoteChars t ++ Char.ofNat 34 :: rest) = some (t, rest) := by
  induction t with
  | nil =>
    simp only [quoteChars, List.nil_append]
    unfold parseStringTail
    rw [if_pos (by decide)]
  | cons c cs ih =>
    rw [quoteChars, List.append_assoc, parseStringTail_quoteChar, ih]
    rfl

theorem parseStringLit_quoteJSONString (s : String) (rest : List Char) :
    parseStringLit ((quoteJSONString s).data ++ rest) = some (s, rest) := by
  have h : (quoteJSONString s).data ++ rest
      = Char.ofNat 34 :: (quoteChars s.data ++ Char.ofNat 34 :: rest) := by
    simp [quoteJSONString]
  rw [h, parseStringLit, if_pos (by decide), parseStringTail_quoteChars]

theorem skipWS_quoted (s : String) (rest : List Char) :
    skipWS ((quoteJSONString s).data ++ rest) = (quoteJSONString s).data ++ rest := by
  simp [skipWS, quoteJSONString, List.dropWhile, isJSONSpace]

theorem submitBody_eq (t : String) :
    jsonStringify (.obj [("expression", .str t)])
      = some ("\x7b\"expression\":" ++ quoteJSONString t ++ "\x7d") := by
  simp only [jsonStringify, serializeJSON, serializeProps, wrapJSON]
  simp
  rfl

theorem decodeExpression_submitBody (t : String) :
    decodeExpression ("\x7b\"expression\":" ++ quoteJSONString t ++ "\x7d") = some t := by
  have hdata : ("\x7b\"expression\":" ++ quoteJSONString t ++ "\x7d").data
      = Char.ofNat 123 :: ((quoteJSONString "expression").data ++
          (Char.ofNat 58 :: ((quoteJSONString t).data ++ [Char.ofNat 125]))) := by
    simp only [String.data_append]
    rfl
  obtain ⟨n, hn⟩ : ∃ n, ("\x7b\"expression\":" ++ quoteJSONString t ++ "\x7d").length = n + 1 := by
    refine ⟨("\x7b\"expression\":" ++ quoteJSONString t ++ "\x7d").length - 1, ?_⟩
    have : 0 < ("\x7b\"expression\":" ++ quoteJSONString t ++ "\x7d").length := by
      rw [String.length_append]
      have : 0 < "\x7d".length := by decide
      omega
    omega
  have hq : (quoteJSONString "expression").data
      = Char.ofNat 34 :: (quoteChars "expression".data ++ [Char.ofNat 34]) := rfl
  have hmem : parseMembers (n + 1) ((quoteJSONString "expression").data ++
          (Char.ofNat 58 :: ((quoteJSONString t).data ++ [Char.ofNat 125])))
      = some ([("expression", t)], []) := by
    rw [parseMembers, skipWS_quoted, parseStringLit_quoteJSONString]
    simp only [skipWS, List.dropWhile]
    have h58 : isJSONSpace (Char.ofNat 58) = false := by decide
    have h125 : isJSONSpace (Char.ofNat 125) = false := by decide
    simp only [h58]
    rw [if_pos (by decide)]
    have := skipWS_quoted t [Char.ofNat 125]
    simp only [skipWS] at this
    rw [this, parseStringLit_quoteJSONString]
    simp only [List.dropWhile, h125]
    rw [if_pos (by decide)]
  unfold decodeExpression parseStringObject
  rw [hdata, hn]
  have h123 : skipWS (Char.ofNat 123 :: ((quoteJSONString "expression").data ++
          (Char.ofNat 58 :: ((quoteJSONString t).data ++ [Char.ofNat 125]))))
      = Char.ofNat 123 :: ((quoteJSONString "expression").data ++
          (Char.ofNat 58 :: ((quoteJSONString t).data ++ [Char.ofNat 125]))) := by
    simp [skipWS, List.dropWhile, isJSONSpace]
  rw [h123]
  simp only
  rw [if_pos (by decide), skipWS_quoted]
  rw [hq] at hmem ⊢
  simp only [List.cons_append]
  simp only [List.cons_append] at hmem
  rw [if_neg (by decide), hmem]
  simp [skipWS, lastMember]

/-! ## Lemmas: the handlers -/

theorem expressionFormSubmit_badStatus (eng : Engine) (status : Nat)
    (body : Except String JSValue) (w : World) (h : responseOk status = false) :
    expressionFormSubmit eng (.response status body) w
      = (.ok (), alert ("Не удалось отправить выражение: " ++ ("Error: " ++ natToString status))
          (issue (submitRequest w.expressionInput) w)) := by
  simp [expressionFormSubmit, expressionFormTry, h, tryCatch, expressionFormCatch]

theorem refreshListButtonClick_badStatus (eng : Engine) (status : Nat)
    (body : Except String JSValue) (w : World) (h : responseOk status = false) :
    refreshListButtonClick eng (.response status body) w
      = (.ok (), alert ("Не удалось найти выражения: " ++ ("Ошибка: " ++ natToString status))
          (issue listRequest w)) := by
  simp [refreshListButtonClick, refreshListTry, h, tryCatch, refreshListCatch]

theorem getDetailsButtonClick_badStatus (eng : Engine) (status : Nat)
    (body : Except String JSValue) (w : World) (h : responseOk status = false)
    (hid : jsTrim w.expressionIdInput ≠ "") :
    getDetailsButtonClick eng (.response status body) w
      = (.ok (), alert ("Не удалось найти выражение: " ++ ("Ошибка: " ++ natToString status))
          (issue (detailsRequest (jsTrim w.expressionIdInput)) w)) := by
  simp [getDetailsButtonClick, hid, getDetailsTry, h, tryCatch, getDetailsCatch]

theorem listItemText_obj (eng : Engine) (props : List (String × JSValue))
    (sId sExpression sStatus sResult : String)
    (hid : toStringJS eng (lookupProp "id" props) = .ok sId)
    (he : toStringJS eng (lookupProp "expression" props) = .ok sExpression)
    (hs : toStringJS eng (lookupProp "status" props) = .ok sStatus)
    (hr : toStringJS eng (resultOrNA (lookupProp "result" props)) = .ok sResult) :
    listItemText eng (.obj props)
      = .ok ("ID: " ++ sId ++ ", Выражение: " ++ sExpression ++ ", Статус: " ++ sStatus ++
          ", Результат: " ++ sResult) := by
  simp [listItemText, getProp, hid, he, hs, hr]

theorem forEachAppend_ok (eng : Engine) (recs : List JSValue) (lines : List String)
    (hl : List.Forall₂ (fun r line => listItemText eng r = .ok line) recs lines) (w : World) :
    forEachAppend eng recs w
      = (.ok (), { w with expressionsList := w.expressionsList ++ lines }) := by
  induction hl generalizing w with
  | nil => simp [forEachAppend]
  | cons h _ ih => simp [forEachAppend, h, ih]

theorem forEachAppend_throw (eng : Engine) (good : List JSValue) (lines : List String)
    (hl : List.Forall₂ (fun r line => listItemText eng r = .ok line) good lines)
    (bad : JSValue) (e : JSError) (hb : listItemText eng bad = .error e)
    (rest : List JSValue) (w : World) :
    forEachAppend eng (good ++ bad :: rest) w
      = (.error e, { w with expressionsList := w.expressionsList ++ lines }) := by
  induction hl generalizing w with
  | nil => simp [forEachAppend, hb]
  | cons h _ ih => simp [forEachAppend, h, ih]

theorem refreshListButtonClick_rendered (eng : Engine) (status : Nat)
    (props : List (String × JSValue)) (recs : List JSValue) (lines : List String) (w : World)
    (h : responseOk status = true) (hx : lookupProp "expressions" props = .arr recs)
    (hl : List.Forall₂ (fun r line => listItemText eng r = .ok line) recs lines) :
    refreshListButtonClick eng (.response status (.ok (.obj props))) w
      = (.ok (), { issue listRequest w with expressionsList := lines }) := by
  simp [refreshListButtonClick, refreshListTry, h, getProp, hx, expressionsForEach,
    forEachAppend_ok eng recs lines hl, tryCatch]

theorem toStringJS_resultOrNA (eng : Engine) (r : JSValue) :
    toStringJS eng (resultOrNA r) = if truthy r then toStringJS eng r else .ok "N/A" := by
  unfold resultOrNA
  split <;> simp [toStringJS]

theorem truthy_eq_false_iff (r : JSValue) :
    truthy r = false ↔
      r = .undefined ∨ r = .null ∨ r = .bool false ∨
        (∃ x, r = .num x ∧ (x.isZero = true ∨ x.isNaN = true)) ∨ r = .str "" := by
  cases r with
  | undefined => simp [truthy]
  | null => simp [truthy]
  | bool b => cases b <;> simp [truthy]
  | num x => cases hz : x.isZero <;> cases hn : x.isNaN <;> simp [truthy, hz, hn]
  | str s => simp [truthy]
  | arr items => simp [truthy]
  | obj props => simp [truthy]

theorem string_append_left_cancel (a b c : String) (h : a ++ b = a ++ c) : b = c := by
  have hd := congrArg String.data h
  rw [String.data_append, String.data_append] at hd
  exact String.ext (List.append_cancel_left hd)

theorem jsTrim_eq_empty_iff (s : String) :
    jsTrim s = "" ↔ ∀ c ∈ s.data, isJSWhiteSpace c = true := by
  unfold jsTrim
  rw [String.ext_iff]
  show ((s.data.dropWhile isJSWhiteSpace).reverse.dropWhile isJSWhiteSpace).reverse = [] ↔ _
  rw [List.reverse_eq_nil_iff]
  constructor
  · intro h
    rw [List.dropWhile_eq_nil_iff] at h
    by_contra hne
    have hne' : s.data.dropWhile isJSWhiteSpace ≠ [] := by
      rwa [Ne, List.dropWhile_eq_nil_iff]
    have hhead := List.head_dropWhile_not isJSWhiteSpace s.data hne'
    have hm := h _ (List.mem_reverse.mpr (List.head_mem hne'))
    rw [hhead] at hm
    exact Bool.false_ne_true hm
  · intro h
    have h0 : s.data.dropWhile isJSWhiteSpace = [] := List.dropWhile_eq_nil_iff.mpr h
    rw [h0]
    rfl

theorem getDetailsButtonClick_guard (eng : Engine) (net : FetchOutcome) (w : World)
    (hid : jsTrim w.expressionIdInput = "") :
    getDetailsButtonClick eng net w = (.ok (), alert "Пожалуйста, введите ID выражения" w) := by
  simp [getDetailsButtonClick, hid]

theorem getDetailsButtonClick_rejected (eng : Engine) (msg : String) (w : World)
    (hid : jsTrim w.expressionIdInput ≠ "") :
    getDetailsButtonClick eng (.rejected msg) w
      = (.ok (), alert ("Не удалось найти выражение: " ++ msg)
          (issue (detailsRequest (jsTrim w.expressionIdInput)) w)) := by
  simp [getDetailsButtonClick, hid, getDetailsTry, tryCatch, getDetailsCatch]

theorem getDetailsButtonClick_jsonError (eng : Engine) (status : Nat) (msg : String)
    (w : World) (hid : jsTrim w.expressionIdInput ≠ "") (hok : responseOk status = true) :
    getDetailsButtonClick eng (.response status (.error msg)) w
      = (.ok (), alert ("Не удалось найти выражение: " ++ msg)
          (issue (detailsRequest (jsTrim w.expressionIdInput)) w)) := by
  simp [getDetailsButtonClick, hid, getDetailsTry, hok, tryCatch, getDetailsCatch]

theorem getDetailsButtonClick_getError (eng : Engine) (status : Nat) (data : JSValue)
    (e : JSError) (w : World) (hid : jsTrim w.expressionIdInput ≠ "")
    (hok : responseOk status = true) (hg : getProp eng data "expression" = .error e) :
    getDetailsButtonClick eng (.response status (.ok data)) w
      = (.ok (), alert ("Не удалось найти выражение: " ++ e.message)
          (issue (detailsRequest (jsTrim w.expressionIdInput)) w)) := by
  simp [getDetailsButtonClick, hid, getDetailsTry, hok, hg, tryCatch, getDetailsCatch]

theorem getDetailsButtonClick_shown (eng : Engine) (status : Nat) (data v : JSValue)
    (w : World) (hid : jsTrim w.expressionIdInput ≠ "")
    (hok : responseOk status = true) (hg : getProp eng data "expression" = .ok v) :
    getDetailsButtonClick eng (.response status (.ok data)) w
      = (.ok (), { issue (detailsRequest (jsTrim w.expressionIdInput)) w with
          expressionDetails := textContentOf (jsonStringifyIndent2 v) }) := by
  simp [getDetailsButtonClick, hid, getDetailsTry, hok, hg, tryCatch]

theorem getDetailsButtonClick_cases (eng : Engine) (net : FetchOutcome) (w : World)
    (hid : jsTrim w.expressionIdInput ≠ "") :
    (∃ text, getDetailsButtonClick eng net w
        = (.ok (), { issue (detailsRequest (jsTrim w.expressionIdInput)) w with
            expressionDetails := text })) ∨
    (∃ msg, getDetailsButtonClick eng net w
        = (.ok (), alert ("Не удалось найти выражение: " ++ msg)
            (issue (detailsRequest (jsTrim w.expressionIdInput)) w))) := by
  cases net with
  | rejected msg => exact Or.inr ⟨msg, getDetailsButtonClick_rejected eng msg w hid⟩
  | response status body =>
    cases hok : responseOk status with
    | false => exact Or.inr ⟨_, getDetailsButtonClick_badStatus eng status body w hok hid⟩
    | true =>
      cases body with
      | error msg => exact Or.inr ⟨msg, getDetailsButtonClick_jsonError eng status msg w hid hok⟩
      | ok data =>
        cases hg : getProp eng data "expression" with
        | error e =>
          exact Or.inr ⟨e.message, getDetailsButtonClick_getError eng status data e w hid hok hg⟩
        | ok v => exact Or.inl ⟨_, getDetailsButtonClick_shown eng status data v w hid hok hg⟩

theorem expressionFormSubmit_rejected (eng : Engine) (msg : String) (w : World) :
    expressionFormSubmit eng (.rejected msg) w
      = (.ok (), alert ("Не удалось отправить выражение: " ++ msg)
          (issue (submitRequest w.expressionInput) w)) := by
  simp [expressionFormSubmit, expressionFormTry, tryCatch, expressionFormCatch]

theorem expressionFormSubmit_jsonError (eng : Engine) (status : Nat) (msg : String)
    (w : World) (hok : responseOk status = true) :
    expressionFormSubmit eng (.response status (.error msg)) w
      = (.ok (), alert ("Не удалось отправить выражение: " ++ msg)
          (issue (submitRequest w.expressionInput) w)) := by
  simp [expressionFormSubmit, expressionFormTry, hok, tryCatch, expressionFormCatch]

theorem expressionFormSubmit_getError (eng : Engine) (status : Nat) (data : JSValue)
    (e : JSError) (w : World) (hok : responseOk status = true)
    (hg : getProp eng data "id" = .error e) :
    expressionFormSubmit eng (.response status (.ok data)) w
      = (.ok (), alert ("Не удалось отправить выражение: " ++ e.message)
          (issue (submitRequest w.expressionInput) w)) := by
  simp [expressionFormSubmit, expressionFormTry, hok, hg, tryCatch, expressionFormCatch]

theorem expressionFormSubmit_noString (eng : Engine) (status : Nat) (data id : JSValue)
    (e : JSError) (w : World) (hok : responseOk status = true)
    (hg : getProp eng data "id" = .ok id) (hs : toStringJS eng id = .error e) :
    expressionFormSubmit eng (.response status (.ok data)) w
      = (.ok (), alert ("Не удалось отправить выражение: " ++ e.message)
          (issue (submitRequest w.expressionInput) w)) := by
  simp [expressionFormSubmit, expressionFormTry, hok, hg, hs, tryCatch, expressionFormCatch]

theorem expressionFormSubmit_accepted (eng : Engine) (status : Nat) (data id : JSValue)
    (s : String) (w : World) (hok : responseOk status = true)
    (hg : getProp eng data "id" = .ok id) (hs : toStringJS eng id = .ok s) :
    expressionFormSubmit eng (.response status (.ok data)) w
      = (.ok (), alert ("Выражение успешно отрпавлено! ID: " ++ s)
          (issue (submitRequest w.expressionInput) w)) := by
  simp [expressionFormSubmit, expressionFormTry, hok, hg, hs, tryCatch]

theorem expressionFormSubmit_cases (eng : Engine) (net : FetchOutcome) (w : World) :
    (∃ s, expressionFormSubmit eng net w
        = (.ok (), alert ("Выражение успешно отрпавлено! ID: " ++ s)
            (issue (submitRequest w.expressionInput) w))) ∨
    (∃ msg, expressionFormSubmit eng net w
        = (.ok (), alert ("Не удалось отправить выражение: " ++ msg)
            (issue (submitRequest w.expressionInput) w))) := by
  cases net with
  | rejected msg => exact Or.inr ⟨msg, expressionFormSubmit_rejected eng msg w⟩
  | response status body =>
    cases hok : responseOk status with
    | false => exact Or.inr ⟨_, expressionFormSubmit_badStatus eng status body w hok⟩
    | true =>
      cases body with
      | error msg => exact Or.inr ⟨msg, expressionFormSubmit_jsonError eng status msg w hok⟩
      | ok data =>
        cases hg : getProp eng data "id" with
        | error e =>
          exact Or.inr ⟨e.message, expressionFormSubmit_getError eng status data e w hok hg⟩
        | ok v =>
          cases hs : toStringJS eng v with
          | error e =>
            exact Or.inr ⟨e.message, expressionFormSubmit_noString eng status data v e w hok hg hs⟩
          | ok s => exact Or.inl ⟨s, expressionFormSubmit_accepted eng status data v s w hok hg hs⟩

theorem forEachAppend_fst_snd (eng : Engine) (recs : List JSValue) (w : World) :
    ∃ lines, (forEachAppend eng recs w).2
      = { w with expressionsList := w.expressionsList ++ lines } := by
  induction recs generalizing w with
  | nil => exact ⟨[], by simp [forEachAppend]⟩
  | cons r rest ih =>
    cases h : listItemText eng r with
    | error e => exact ⟨[], by simp [forEachAppend, h]⟩
    | ok text =>
      obtain ⟨ls, hls⟩ := ih { w with expressionsList := w.expressionsList ++ [text] }
      exact ⟨text :: ls, by simp [forEachAppend, h, hls]⟩

theorem refreshListButtonClick_rejected (eng : Engine) (msg : String) (w : World) :
    refreshListButtonClick eng (.rejected msg) w
      = (.ok (), alert ("Не удалось найти выражения: " ++ msg) (issue listRequest w)) := by
  simp [refreshListButtonClick, refreshListTry, tryCatch, refreshListCatch]

theorem refreshListButtonClick_jsonError (eng : Engine) (status : Nat) (msg : String)
    (w : World) (hok : responseOk status = true) :
    refreshListButtonClick eng (.response status (.error msg)) w
      = (.ok (), alert ("Не удалось найти выражения: " ++ msg) (issue listRequest w)) := by
  simp [refreshListButtonClick, refreshListTry, hok, tryCatch, refreshListCatch]

theorem refreshListButtonClick_getError (eng : Engine) (status : Nat) (data : JSValue)
    (e : JSError) (w : World) (hok : responseOk status = true)
    (hg : getProp eng data "expressions" = .error e) :
    refreshListButtonClick eng (.response status (.ok data)) w
      = (.ok (), alert ("Не удалось найти выражения: " ++ e.message)
          { issue listRequest w with expressionsList := [] }) := by
  simp [refreshListButtonClick, refreshListTry, hok, hg, tryCatch, refreshListCatch]

theorem expressionsForEach_not_array (eng : Engine) (v : JSValue) (w : World)
    (hv : ∀ items, v ≠ .arr items) :
    ∃ msg, expressionsForEach eng v w = (.error ⟨msg⟩, w) := by
  cases v with
  | arr items => exact absurd rfl (hv items)
  | undefined => exact ⟨_, rfl⟩
  | null => exact ⟨_, rfl⟩
  | bool b => exact ⟨_, rfl⟩
  | num n => exact ⟨_, rfl⟩
  | str s => exact ⟨_, rfl⟩
  | obj props => exact ⟨_, rfl⟩

theorem refreshListButtonClick_not_array (eng : Engine) (status : Nat) (data v : JSValue)
    (w : World) (hok : responseOk status = true)
    (hg : getProp eng data "expressions" = .ok v) (hv : ∀ items, v ≠ .arr items) :
    ∃ msg, refreshListButtonClick eng (.response status (.ok data)) w
      = (.ok (), alert ("Не удалось найти выражения: " ++ msg)
          { issue listRequest w with expressionsList := [] }) := by
  obtain ⟨msg, hmsg⟩ := expressionsForEach_not_array eng v
    { issue listRequest w with expressionsList := [] } hv
  exact ⟨msg, by
    simp [refreshListButtonClick, refreshListTry, hok, hg, hmsg, tryCatch, refreshListCatch]⟩

theorem refreshListButtonClick_cut_short (eng : Engine) (status : Nat) (data : JSValue)
    (good : List JSValue) (lines : List String) (bad : JSValue) (e : JSError)
    (rest : List JSValue) (w : World) (hok : responseOk status = true)
    (hg : getProp eng data "expressions" = .ok (.arr (good ++ bad :: rest)))
    (hl : List.Forall₂ (fun r line => listItemText eng r = .ok line) good lines)
    (hb : listItemText eng bad = .error e) :
    refreshListButtonClick eng (.response status (.ok data)) w
      = (.ok (), alert ("Не удалось найти выражения: " ++ e.message)
          { issue listRequest w with expressionsList := lines }) := by
  simp [refreshListButtonClick, refreshListTry, hok, hg, expressionsForEach,
    forEachAppend_throw eng good lines hl bad e hb rest, tryCatch, refreshListCatch]

theorem refreshListButtonClick_array (eng : Engine) (status : Nat) (data : JSValue)
    (items : List JSValue) (w : World) (hok : responseOk status = true)
    (hg : getProp eng data "expressions" = .ok (.arr items)) :
    refreshListButtonClick eng (.response status (.ok data)) w
      = tryCatch (forEachAppend eng items { issue listRequest w with expressionsList := [] })
          refreshListCatch := by
  simp [refreshListButtonClick, refreshListTry, hok, hg, expressionsForEach]

theorem refreshListButtonClick_cases (eng : Engine) (net : FetchOutcome) (w : World) :
    (∃ lines, refreshListButtonClick eng net w
        = (.ok (), { issue listRequest w with expressionsList := lines })) ∨
    (∃ msg lines, refreshListButtonClick eng net w
        = (.ok (), alert ("Не удалось найти выражения: " ++ msg)
            { issue listRequest w with expressionsList := lines })) := by
  cases net with
  | rejected msg =>
    exact Or.inr ⟨msg, w.expressionsList, refreshListButtonClick_rejected eng msg w⟩
  | response status body =>
    cases hok : responseOk status with
    | false =>
      exact Or.inr ⟨_, w.expressionsList, refreshListButtonClick_badStatus eng status body w hok⟩
    | true =>
      cases body with
      | error msg =>
        exact Or.inr ⟨msg, w.expressionsList, refreshListButtonClick_jsonError eng status msg w hok⟩
      | ok data =>
        cases hg : getProp eng data "expressions" with
        | error e =>
          exact Or.inr ⟨e.message, [], refreshListButtonClick_getError eng status data e w hok hg⟩
        | ok v =>
          by_cases hv : ∃ items, v = .arr items
          · obtain ⟨items, rfl⟩ := hv
            rw [refreshListButtonClick_array eng status data items w hok hg]
            obtain ⟨lines, hlines⟩ := forEachAppend_fst_snd eng items
              { issue listRequest w with expressionsList := [] }
            rcases hfe : forEachAppend eng items
              { issue listRequest w with expressionsList := [] } with ⟨r, w3⟩
            rw [hfe] at hlines
            simp only at hlines
            subst hlines
            cases r with
            | ok u => exact Or.inl ⟨lines, by simp [tryCatch]⟩
            | error e => exact Or.inr ⟨e.message, lines, by simp [tryCatch, refreshListCatch]⟩
          · obtain ⟨msg, hmsg⟩ := refreshListButtonClick_not_array eng status data v w hok hg
              (fun items h => hv ⟨items, h⟩)
            exact Or.inr ⟨msg, [], hmsg⟩

theorem forEachAppend_congr (eng : Engine) (items : List JSValue) (w w' : World)
    (h : w.expressionsList = w'.expressionsList) :
    (forEachAppend eng items w).1 = (forEachAppend eng items w').1 ∧
    (forEachAppend eng items w).2.expressionsList
      = (forEachAppend eng items w').2.expressionsList := by
  induction items generalizing w w' with
  | nil => exact ⟨rfl, h⟩
  | cons r rest ih =>
    cases hr : listItemText eng r with
    | error e => simp [forEachAppend, hr, h]
    | ok text =>
      simp only [forEachAppend, hr]
      exact ih _ _ (by simp [h])

theorem tryCatch_refreshList_region (c : Completion) :
    (tryCatch c refreshListCatch).2.expressionsList = c.2.expressionsList := by
  rcases c with ⟨r, w⟩
  cases r <;> rfl

theorem refreshListButtonClick_region_of_body (eng : Engine) (status : Nat) (data : JSValue)
    (w w' : World) (hok : responseOk status = true) :
    (refreshListButtonClick eng (.response status (.ok data)) w).2.expressionsList
      = (refreshListButtonClick eng (.response status (.ok data)) w').2.expressionsList := by
  cases hg : getProp eng data "expressions" with
  | error e =>
    rw [refreshListButtonClick_getError eng status data e w hok hg,
      refreshListButtonClick_getError eng status data e w' hok hg]
    rfl
  | ok v =>
    by_cases hv : ∃ items, v = .arr items
    · obtain ⟨items, rfl⟩ := hv
      rw [refreshListButtonClick_array eng status data items w hok hg,
        refreshListButtonClick_array eng status data items w' hok hg,
        tryCatch_refreshList_region, tryCatch_refreshList_region]
      exact (forEachAppend_congr eng items { issue listRequest w with expressionsList := [] }
        { issue listRequest w' with expressionsList := [] } rfl).2
    · obtain ⟨m1, h1⟩ := refreshListButtonClick_not_array eng status data v w hok hg
        (fun items h => hv ⟨items, h⟩)
      obtain ⟨m2, h2⟩ := refreshListButtonClick_not_array eng status data v w' hok hg
        (fun items h => hv ⟨items, h⟩)
      rw [h1, h2]
      rfl

theorem success_text_ne_failure_text (s msg : String) :
    "Выражение успешно отрпавлено! ID: " ++ s ≠ "Не удалось отправить выражение: " ++ msg := by
  intro h
  have hd := congrArg String.data h
  simp at hd

/-! ## Claims -/

/-- C1 (as the code has it): for every HTTP status outside the success range
the notification of each flow is the flow's own failure text (the Russian
text of the script) followed by a description that ends in the status in
decimal. In the list flow and in the get-by-id flow (identifier non-empty
after trimming) the description is `Ошибка: ` and the status; in the submit
flow it is a fixed label and the status. -/
theorem failure_notification_of_bad_status (eng : Engine) :
    (∃ label : String, ∀ (status : Nat) (body : Except String JSValue) (w : World),
      responseOk status = false →
      (expressionFormSubmit eng (.response status body) w).2.alerts
        = w.alerts ++ ["Не удалось отправить выражение: " ++ (label ++ natToString status)]) ∧
    (∀ (status : Nat) (body : Except String JSValue) (w : World),
      responseOk status = false →
      (refreshListButtonClick eng (.response status body) w).2.alerts
        = w.alerts ++ ["Не удалось найти выражения: " ++ ("Ошибка: " ++ natToString status)]) ∧
    (∀ (status : Nat) (body : Except String JSValue) (w : World),
      responseOk status = false → jsTrim w.expressionIdInput ≠ "" →
      (getDetailsButtonClick eng (.response status body) w).2.alerts
        = w.alerts ++ ["Не удалось найти выражение: " ++ ("Ошибка: " ++ natToString status)]) := by
  refine ⟨⟨"Error: ", fun status body w h => ?_⟩, fun status body w h => ?_,
    fun status body w h hid => ?_⟩
  · rw [expressionFormSubmit_badStatus eng status body w h]
    rfl
  · rw [refreshListButtonClick_badStatus eng status body w h]
    rfl
  · rw [getDetailsButtonClick_badStatus eng status body w h hid]
    rfl

/-- C1 on the sample page at status 404, and at status 500 with a blank
identifier field for the list flow. -/
theorem failure_notification_of_bad_status_witness :
    (refreshListButtonClick v8 (.response 404 (.ok .null)) sampleWorld).2.alerts
        = ["Не удалось найти выражения: Ошибка: 404"] ∧
    (getDetailsButtonClick v8 (.response 404 (.ok .null)) sampleWorld).2.alerts
        = ["Не удалось найти выражение: Ошибка: 404"] ∧
    (refreshListButtonClick v8 (.response 500 (.error "Unexpected token"))
        { sampleWorld with expressionIdInput := "" }).2.alerts
        = ["Не удалось найти выражения: Ошибка: 500"] :=
  ⟨(failure_notification_of_bad_status v8).2.1 404 (.ok .null) sampleWorld (by decide),
    (failure_notification_of_bad_status v8).2.2 404 (.ok .null) sampleWorld (by decide)
      (by decide),
    (failure_notification_of_bad_status v8).2.1 500 (.error "Unexpected token")
      { sampleWorld with expressionIdInput := "" } (by decide)⟩

/-- C1 as stated fails: at status 500 no flow shows the English text; the
list and get-by-id flows show the Russian text with the description
`Ошибка: 500`. -/
theorem english_failure_text_refuted :
    (expressionFormSubmit v8 (.response 500 (.ok .null)) sampleWorld).2.alerts
        ≠ ["Failed to submit expression: Error: 500"] ∧
    (refreshListButtonClick v8 (.response 500 (.ok .null)) sampleWorld).2.alerts
        ≠ ["Failed to fetch expressions: Error: 500"] ∧
    (getDetailsButtonClick v8 (.response 500 (.ok .null)) sampleWorld).2.alerts
        ≠ ["Failed to fetch expression: Error: 500"] ∧
    (refreshListButtonClick v8 (.response 500 (.ok .null)) sampleWorld).2.alerts
        = ["Не удалось найти выражения: Ошибка: 500"] ∧
    (getDetailsButtonClick v8 (.response 500 (.ok .null)) sampleWorld).2.alerts
        = ["Не удалось найти выражение: Ошибка: 500"] := by
  decide

/-- C2 (as the code has it): for every record whose `id`, `expression` and
`status` have string forms and whose `result` is truthy with a string form,
the line rendered for it is
`ID: {id}, Выражение: {expression}, Статус: {status}, Результат: {result}`,
and a list response holding just that record leaves exactly that line in the
list region. -/
theorem rendered_line_of_truthy_result (eng : Engine) (props : List (String × JSValue))
    (sId sExpression sStatus sResult : String) (status : Nat) (w : World)
    (hid : toStringJS eng (lookupProp "id" props) = .ok sId)
    (he : toStringJS eng (lookupProp "expression" props) = .ok sExpression)
    (hs : toStringJS eng (lookupProp "status" props) = .ok sStatus)
    (ht : truthy (lookupProp "result" props) = true)
    (hr : toStringJS eng (lookupProp "result" props) = .ok sResult)
    (hok : responseOk status = true) :
    listItemText eng (.obj props)
      = .ok ("ID: " ++ sId ++ ", Выражение: " ++ sExpression ++ ", Статус: " ++ sStatus ++
          ", Результат: " ++ sResult) ∧
    (refreshListButtonClick eng
        (.response status (.ok (.obj [("expressions", .arr [.obj props])]))) w).2.expressionsList
      = ["ID: " ++ sId ++ ", Выражение: " ++ sExpression ++ ", Статус: " ++ sStatus ++
          ", Результат: " ++ sResult] := by
  have hr' : toStringJS eng (resultOrNA (lookupProp "result" props)) = .ok sResult := by
    rw [toStringJS_resultOrNA, if_pos ht, hr]
  have hline := listItemText_obj eng props sId sExpression sStatus sResult hid he hs hr'
  refine ⟨hline, ?_⟩
  rw [refreshListButtonClick_rendered eng status [("expressions", .arr [.obj props])]
    [.obj props] _ w hok rfl (List.Forall₂.cons hline List.Forall₂.nil)]

/-- C2 on the record of the scenario, and on a record whose `id` is 2^57 and
whose `result` is 2.5. -/
theorem rendered_line_of_truthy_result_witness :
    (listItemText v8 (.obj [("id", .num (.ofNat 1)), ("expression", .str "2+2"),
        ("status", .str "done"), ("result", .num (.ofNat 4))])
      = .ok "ID: 1, Выражение: 2+2, Статус: done, Результат: 4" ∧
    (refreshListButtonClick v8
        (.response 200 (.ok (.obj [("expressions", .arr [.obj [("id", .num (.ofNat 1)),
          ("expression", .str "2+2"), ("status", .str "done"),
          ("result", .num (.ofNat 4))]])]))) sampleWorld).2.expressionsList
      = ["ID: 1, Выражение: 2+2, Статус: done, Результат: 4"]) ∧
    listItemText v8 (.obj [("id", .num (.ofNat 144115188075855872)),
        ("expression", .str "5/2"), ("status", .str "done"), ("result", .num twoAndHalf)])
      = .ok "ID: 144115188075855870, Выражение: 5/2, Статус: done, Результат: 2.5" :=
  ⟨rendered_line_of_truthy_result v8 [("id", .num (.ofNat 1)), ("expression", .str "2+2"),
      ("status", .str "done"), ("result", .num (.ofNat 4))] "1" "2+2" "done" "4" 200 sampleWorld
      (by decide) rfl rfl (by decide) (by decide) (by decide),
    (rendered_line_of_truthy_result v8 [("id", .num (.ofNat 144115188075855872)),
      ("expression", .str "5/2"), ("status", .str "done"), ("result", .num twoAndHalf)]
      "144115188075855870" "5/2" "done" "2.5" 200 sampleWorld
      (by decide) rfl rfl (by decide) (by decide) (by decide)).1⟩

/-- C2 as stated fails: the record of the scenario is rendered with the
Russian field labels, not with `Expression`, `Status` and `Result`. -/
theorem english_line_refuted :
    (refreshListButtonClick v8
        (.response 200 (.ok (.obj [("expressions", .arr [.obj [("id", .num (.ofNat 1)),
          ("expression", .str "2+2"), ("status", .str "done"),
          ("result", .num (.ofNat 4))]])]))) sampleWorld).2.expressionsList
      = ["ID: 1, Выражение: 2+2, Статус: done, Результат: 4"] ∧
    (refreshListButtonClick v8
        (.response 200 (.ok (.obj [("expressions", .arr [.obj [("id", .num (.ofNat 1)),
          ("expression", .str "2+2"), ("status", .str "done"),
          ("result", .num (.ofNat 4))]])]))) sampleWorld).2.expressionsList
      ≠ ["ID: 1, Expression: 2+2, Status: done, Result: 4"] := by
  decide

/-- C3 (as the code has it): in the line rendered for a record (whose `id`,
`expression` and `status` have string forms) the text after the last label is
`N/A` when the result is falsy and the string form of the result otherwise
(no line is rendered when a truthy result has no string form); the falsy
values are `undefined` (absent), `null`, `false`, the zeros, `NaN` and the
empty string; and the line ends in `N/A` exactly when the result is falsy or
its own string form is `N/A`. -/
theorem result_text_substitution (eng : Engine) (props : List (String × JSValue))
    (sId sExpression sStatus : String)
    (hid : toStringJS eng (lookupProp "id" props) = .ok sId)
    (he : toStringJS eng (lookupProp "expression" props) = .ok sExpression)
    (hs : toStringJS eng (lookupProp "status" props) = .ok sStatus) :
    listItemText eng (.obj props)
      = (if truthy (lookupProp "result" props) then
          match toStringJS eng (lookupProp "result" props) with
          | .ok sResult =>
            .ok ("ID: " ++ sId ++ ", Выражение: " ++ sExpression ++ ", Статус: " ++ sStatus ++
              ", Результат: " ++ sResult)
          | .error e => .error e
        else
          .ok ("ID: " ++ sId ++ ", Выражение: " ++ sExpression ++ ", Статус: " ++ sStatus ++
            ", Результат: " ++ "N/A")) ∧
    (truthy (lookupProp "result" props) = false ↔
      lookupProp "result" props = .undefined ∨ lookupProp "result" props = .null ∨
        lookupProp "result" props = .bool false ∨
        (∃ x, lookupProp "result" props = .num x ∧ (x.isZero = true ∨ x.isNaN = true)) ∨
        lookupProp "result" props = .str "") ∧
    (listItemText eng (.obj props)
        = .ok ("ID: " ++ sId ++ ", Выражение: " ++ sExpression ++ ", Статус: " ++ sStatus ++
            ", Результат: " ++ "N/A") ↔
      truthy (lookupProp "result" props) = false ∨
        toStringJS eng (lookupProp "result" props) = .ok "N/A") := by
  have hline : listItemText eng (.obj props)
      = (if truthy (lookupProp "result" props) then
          match toStringJS eng (lookupProp "result" props) with
          | .ok sResult =>
            .ok ("ID: " ++ sId ++ ", Выражение: " ++ sExpression ++ ", Статус: " ++ sStatus ++
              ", Результат: " ++ sResult)
          | .error e => .error e
        else
          .ok ("ID: " ++ sId ++ ", Выражение: " ++ sExpression ++ ", Статус: " ++ sStatus ++
            ", Результат: " ++ "N/A")) := by
    cases ht : truthy (lookupProp "result" props) with
    | false =>
      simp [listItemText, getProp, hid, he, hs, toStringJS_resultOrNA, ht]
    | true =>
      cases hr : toStringJS eng (lookupProp "result" props) with
      | error e => simp [listItemText, getProp, hid, he, hs, toStringJS_resultOrNA, ht, hr]
      | ok sResult => simp [listItemText, getProp, hid, he, hs, toStringJS_resultOrNA, ht, hr]
  refine ⟨hline, truthy_eq_false_iff _, ?_⟩
  rw [hline]
  cases ht : truthy (lookupProp "result" props) with
  | false => simp
  | true =>
    cases hr : toStringJS eng (lookupProp "result" props) with
    | error e => simp
    | ok sResult =>
      simp only [if_true, Except.ok.injEq, Bool.true_eq_false, false_or]
      constructor
      · intro h
        rw [string_append_left_cancel _ _ _ h]
      · intro h
        rw [h]

/-- C3 on the records of the claim: a `null` result and the computed result
`0` are rendered as `N/A`, the result 2.5 as `2.5`. -/
theorem result_text_substitution_witness :
    listItemText v8 (.obj [("id", .num (.ofNat 2)), ("expression", .str "3*3"),
        ("status", .str "pending"), ("result", .null)])
      = .ok "ID: 2, Выражение: 3*3, Статус: pending, Результат: N/A" ∧
    listItemText v8 (.obj [("id", .num (.ofNat 3)), ("expression", .str "1-1"),
        ("status", .str "done"), ("result", .num (.ofNat 0))])
      = .ok "ID: 3, Выражение: 1-1, Статус: done, Результат: N/A" ∧
    listItemText v8 (.obj [("id", .num (.ofNat 4)), ("expression", .str "5/2"),
        ("status", .str "done"), ("result", .num twoAndHalf)])
      = .ok "ID: 4, Выражение: 5/2, Статус: done, Результат: 2.5" :=
  ⟨((result_text_substitution v8 [("id", .num (.ofNat 2)), ("expression", .str "3*3"),
      ("status", .str "pending"), ("result", .null)] "2" "3*3" "pending"
      (by decide) rfl rfl).2.2).2 (Or.inl rfl),
    ((result_text_substitution v8 [("id", .num (.ofNat 3)), ("expression", .str "1-1"),
      ("status", .str "done"), ("result", .num (.ofNat 0))] "3" "1-1" "done"
      (by decide) rfl rfl).2.2).2 (Or.inl (by decide)),
    (result_text_substitution v8 [("id", .num (.ofNat 4)), ("expression", .str "5/2"),
      ("status", .str "done"), ("result", .num twoAndHalf)] "4" "5/2" "done"
      (by decide) rfl rfl).1.trans (by decide)⟩

/-- C3 as stated fails in the only-if direction: the string `N/A` is a truthy
result, and the line rendered for it ends in `N/A` all the same. -/
theorem na_text_of_truthy_result :
    truthy (.str "N/A") = true ∧
    listItemText v8 (.obj [("id", .num (.ofNat 7)), ("expression", .str "1/0"),
        ("status", .str "failed"), ("result", .str "N/A")])
      = .ok "ID: 7, Выражение: 1/0, Статус: failed, Результат: N/A" := by
  decide

/-- C4 (as the code has it): the trimmed identifier is empty exactly when the
input consists of white space only (the empty input included); in that case
the handler issues no request, leaves both regions as they were and shows one
notification, the prompt `Пожалуйста, введите ID выражения`; otherwise the
guard does not fire: exactly one request is issued, a `GET` for the trimmed
identifier, and the only notification that can follow is the failure one. -/
theorem details_guard (eng : Engine) (net : FetchOutcome) (w : World) :
    (jsTrim w.expressionIdInput = "" ↔ ∀ c ∈ w.expressionIdInput.data, isJSWhiteSpace c = true) ∧
    (jsTrim w.expressionIdInput = "" →
      getDetailsButtonClick eng net w
        = (.ok (), { w with alerts := w.alerts ++ ["Пожалуйста, введите ID выражения"] })) ∧
    (jsTrim w.expressionIdInput ≠ "" →
      (getDetailsButtonClick eng net w).2.requests
          = w.requests ++ [detailsRequest (jsTrim w.expressionIdInput)] ∧
      (detailsRequest (jsTrim w.expressionIdInput)).method = "GET" ∧
      (detailsRequest (jsTrim w.expressionIdInput)).url
          = "http://localhost:8080" ++ "/api/v1/expressions/" ++ jsTrim w.expressionIdInput ∧
      ((getDetailsButtonClick eng net w).2.alerts = w.alerts ∨
        ∃ msg, (getDetailsButtonClick eng net w).2.alerts
          = w.alerts ++ ["Не удалось найти выражение: " ++ msg])) := by
  refine ⟨jsTrim_eq_empty_iff _, fun h => getDetailsButtonClick_guard eng net w h, fun h => ?_⟩
  rcases getDetailsButtonClick_cases eng net w h with ⟨text, ht⟩ | ⟨msg, hm⟩
  · rw [ht]
    exact ⟨rfl, rfl, rfl, Or.inl rfl⟩
  · rw [hm]
    exact ⟨rfl, rfl, rfl, Or.inr ⟨msg, rfl⟩⟩

/-- C4 on a blank identifier and on the identifier ` 9 `. -/
theorem details_guard_witness :
    (getDetailsButtonClick v8 (.response 200 (.ok .null))
        { sampleWorld with expressionIdInput := "   " })
      = (.ok (), { sampleWorld with
          expressionIdInput := "   ", alerts := ["Пожалуйста, введите ID выражения"] }) ∧
    (getDetailsButtonClick v8 (.response 404 (.ok .null))
        { sampleWorld with expressionIdInput := " 9 " }).2.requests
      = [⟨"GET", "http://localhost:8080/api/v1/expressions/9", [], none⟩] :=
  ⟨(details_guard v8 (.response 200 (.ok .null))
      { sampleWorld with expressionIdInput := "   " }).2.1 (by decide),
    ((details_guard v8 (.response 404 (.ok .null))
      { sampleWorld with expressionIdInput := " 9 " }).2.2 (by decide)).1⟩

/-- C4 as stated fails: on the blank identifier the notification is the
Russian prompt, not `Please enter an expression ID`. -/
theorem english_prompt_refuted :
    (getDetailsButtonClick v8 (.response 200 (.ok .null))
        { sampleWorld with expressionIdInput := "   " }).2.alerts
      = ["Пожалуйста, введите ID выражения"] ∧
    (getDetailsButtonClick v8 (.response 200 (.ok .null))
        { sampleWorld with expressionIdInput := "   " }).2.alerts
      ≠ ["Please enter an expression ID"] ∧
    (getDetailsButtonClick v8 (.response 200 (.ok .null))
        { sampleWorld with expressionIdInput := "   " }).2.requests = [] := by
  decide

/-- C5: for every expression text (the empty one included) and every outcome
of the call, one trigger of the submit handler issues exactly one request: a
`POST` to `/api/v1/calculate` on the base address, with the header
`Content-Type: application/json` and the body `JSON.stringify` gives for the
object holding the text, unmodified, under `expression`; decoding that body
and reading `expression` gives the text back. -/
theorem submit_issues_one_post (eng : Engine) (net : FetchOutcome) (w : World) :
    (expressionFormSubmit eng net w).2.requests
        = w.requests ++ [submitRequest w.expressionInput] ∧
    (submitRequest w.expressionInput).method = "POST" ∧
    (submitRequest w.expressionInput).url = "http://localhost:8080" ++ "/api/v1/calculate" ∧
    (submitRequest w.expressionInput).headers = [("Content-Type", "application/json")] ∧
    (submitRequest w.expressionInput).body
        = jsonStringify (.obj [("expression", .str w.expressionInput)]) ∧
    (submitRequest w.expressionInput).body
        = some ("\x7b\"expression\":" ++ quoteJSONString w.expressionInput ++ "\x7d") ∧
    decodeExpression ("\x7b\"expression\":" ++ quoteJSONString w.expressionInput ++ "\x7d")
        = some w.expressionInput := by
  refine ⟨?_, rfl, rfl, rfl, rfl, submitBody_eq _, decodeExpression_submitBody _⟩
  rcases expressionFormSubmit_cases eng net w with ⟨s, hs⟩ | ⟨msg, hm⟩
  · rw [hs]; rfl
  · rw [hm]; rfl

/-- C6: for every prior state of the page and every successful list response
whose records all render, the list region afterwards holds exactly the lines
of the records, one per record and in the order of the response, whatever it
held before; no notification is shown; and triggering the handler again with
the same response leaves the same lines, not a second copy of them. -/
theorem list_region_replaced (eng : Engine) (status : Nat) (props : List (String × JSValue))
    (recs : List JSValue) (lines : List String) (w w' : World)
    (hok : responseOk status = true) (hx : lookupProp "expressions" props = .arr recs)
    (hl : List.Forall₂ (fun r line => listItemText eng r = .ok line) recs lines) :
    (refreshListButtonClick eng (.response status (.ok (.obj props))) w).2.expressionsList
        = lines ∧
    lines.length = recs.length ∧
    (refreshListButtonClick eng (.response status (.ok (.obj props))) w').2.expressionsList
        = (refreshListButtonClick eng (.response status (.ok (.obj props))) w).2.expressionsList ∧
    (refreshListButtonClick eng (.response status (.ok (.obj props))) w).2.alerts = w.alerts ∧
    (refreshListButtonClick eng (.response status (.ok (.obj props)))
        (refreshListButtonClick eng (.response status (.ok (.obj props)))
          w).2).2.expressionsList = lines := by
  have h1 := refreshListButtonClick_rendered eng status props recs lines w hok hx hl
  have h2 := refreshListButtonClick_rendered eng status props recs lines w' hok hx hl
  have h3 := refreshListButtonClick_rendered eng status props recs lines
    (refreshListButtonClick eng (.response status (.ok (.obj props))) w).2 hok hx hl
  rw [h3, h2, h1]
  exact ⟨rfl, hl.length_eq.symm, rfl, rfl, rfl⟩

theorem list_region_replaced_witness :
    (refreshListButtonClick v8 (.response 200 (.ok (.obj [("expressions", .arr [
        .obj [("id", .num (.ofNat 1)), ("expression", .str "2+2"), ("status", .str "done"),
          ("result", .num (.ofNat 4))],
        .obj [("id", .num (.ofNat 2)), ("expression", .str "3*3"), ("status", .str "pending"),
          ("result", .null)]])]))) sampleWorld).2.expressionsList
      = ["ID: 1, Выражение: 2+2, Статус: done, Результат: 4",
          "ID: 2, Выражение: 3*3, Статус: pending, Результат: N/A"] :=
  (list_region_replaced v8 200 [("expressions", .arr [
        .obj [("id", .num (.ofNat 1)), ("expression", .str "2+2"), ("status", .str "done"),
          ("result", .num (.ofNat 4))],
        .obj [("id", .num (.ofNat 2)), ("expression", .str "3*3"), ("status", .str "pending"),
          ("result", .null)]])] _
      ["ID: 1, Выражение: 2+2, Статус: done, Результат: 4",
        "ID: 2, Выражение: 3*3, Статус: pending, Результат: N/A"]
      sampleWorld sampleWorld (by decide) rfl
      (List.Forall₂.cons (by decide) (List.Forall₂.cons (by decide) List.Forall₂.nil))).1

/-- C7 (as the code has it): for every identifier that is non-empty after
trimming and every status outside the success range, the detail region (and
the list region) is left as it was and the notification is
`Не удалось найти выражение: Ошибка: {status}`. -/
theorem details_untouched_of_bad_status (eng : Engine) (status : Nat)
    (body : Except String JSValue) (w : World) (hid : jsTrim w.expressionIdInput ≠ "")
    (h : responseOk status = false) :
    (getDetailsButtonClick eng (.response status body) w).1 = .ok () ∧
    (getDetailsButtonClick eng (.response status body) w).2.expressionDetails
        = w.expressionDetails ∧
    (getDetailsButtonClick eng (.response status body) w).2.expressionsList
        = w.expressionsList ∧
    (getDetailsButtonClick eng (.response status body) w).2.alerts
        = w.alerts ++ ["Не удалось найти выражение: " ++ ("Ошибка: " ++ natToString status)] := by
  rw [getDetailsButtonClick_badStatus eng status body w h hid]
  exact ⟨rfl, rfl, rfl, rfl⟩

theorem details_untouched_of_bad_status_witness :
    (getDetailsButtonClick v8 (.response 404 (.error "Unexpected end of JSON input"))
        sampleWorld).2.expressionDetails = "stale detail" ∧
    (getDetailsButtonClick v8 (.response 404 (.error "Unexpected end of JSON input"))
        sampleWorld).2.alerts = ["Не удалось найти выражение: Ошибка: 404"] :=
  ⟨(details_untouched_of_bad_status v8 404 (.error "Unexpected end of JSON input") sampleWorld
      (by decide) (by decide)).2.1,
    (details_untouched_of_bad_status v8 404 (.error "Unexpected end of JSON input") sampleWorld
      (by decide) (by decide)).2.2.2⟩

/-- C7 as stated fails: for identifier `9` and status 404 the detail region is
untouched, but the notification is the Russian text, not
`Failed to fetch expression: Error: 404`. -/
theorem english_details_failure_refuted :
    sampleWorld.expressionIdInput = "9" ∧
    (getDetailsButtonClick v8 (.response 404 (.ok .null)) sampleWorld).2.expressionDetails
      = sampleWorld.expressionDetails ∧
    (getDetailsButtonClick v8 (.response 404 (.ok .null)) sampleWorld).2.alerts
      = ["Не удалось найти выражение: Ошибка: 404"] ∧
    (getDetailsButtonClick v8 (.response 404 (.ok .null)) sampleWorld).2.alerts
      ≠ ["Failed to fetch expression: Error: 404"] := by
  decide

/-- C8 (as the code has it): for every successful submit response whose `id`
field has a string form, exactly one notification is shown: a fixed Russian
success text that begins `Выражение успешно `, followed by `! ID: ` and the
string form of the identifier. -/
theorem submit_success_notification (eng : Engine) :
    ∃ word : String, ∀ (status : Nat) (data id : JSValue) (s : String) (w : World),
      responseOk status = true → getProp eng data "id" = .ok id → toStringJS eng id = .ok s →
      (expressionFormSubmit eng (.response status (.ok data)) w).2.alerts
        = w.alerts ++ ["Выражение успешно " ++ word ++ "! ID: " ++ s] := by
  refine ⟨"отрпавлено", fun status data id s w hok hg hs => ?_⟩
  rw [expressionFormSubmit_accepted eng status data id s w hok hg hs]
  rfl

/-- C8 on the response of the scenario, and on a response whose `id` is the
number 2^57. -/
theorem submit_success_notification_witness :
    ∃ word : String,
      (expressionFormSubmit v8 (.response 200 (.ok (.obj [("id", .str "abc123")])))
          sampleWorld).2.alerts
        = ["Выражение успешно " ++ word ++ "! ID: " ++ "abc123"] ∧
      (expressionFormSubmit v8
          (.response 201 (.ok (.obj [("id", .num (.ofNat 144115188075855872))])))
          sampleWorld).2.alerts
        = ["Выражение успешно " ++ word ++ "! ID: " ++ "144115188075855870"] :=
  (submit_success_notification v8).elim fun word h =>
    ⟨word, h 200 (.obj [("id", .str "abc123")]) (.str "abc123") "abc123" sampleWorld
        (by decide) rfl rfl,
      h 201 (.obj [("id", .num (.ofNat 144115188075855872))])
        (.num (.ofNat 144115188075855872)) "144115188075855870" sampleWorld
        (by decide) rfl (by decide)⟩

/-- C8 as stated fails: for the response with `id` `abc123` to the submission
`2+2` one notification is shown and it is not
`Expression submitted successfully! ID: abc123`. -/
theorem english_success_text_refuted :
    sampleWorld.expressionInput = "2+2" ∧
    (expressionFormSubmit v8 (.response 200 (.ok (.obj [("id", .str "abc123")])))
        sampleWorld).2.alerts.length = 1 ∧
    (expressionFormSubmit v8 (.response 200 (.ok (.obj [("id", .str "abc123")])))
        sampleWorld).2.alerts
      ≠ ["Expression submitted successfully! ID: abc123"] := by
  decide

/-- C9 (as the code has it): in each flow the handler completes normally for
every outcome of the call and shows at most one notification. A rejected
call, a status outside the success range, a body that is not JSON and a
decoded body `null` each give exactly one notification, the failure text of
the flow followed by the description of the error. A decoded object without
the expected field is a failure in the list flow only: the submit flow shows
its success text with `undefined`, and the get-by-id flow shows nothing and
empties the detail region. On a successful outcome no failure text is shown.
The statements about the get-by-id flow after the call are for an identifier
that is non-empty after trimming. -/
theorem failures_become_one_notification (eng : Engine) (w : World) :
    (∀ net, (expressionFormSubmit eng net w).1 = .ok () ∧
      (refreshListButtonClick eng net w).1 = .ok () ∧
      (getDetailsButtonClick eng net w).1 = .ok ()) ∧
    (∀ net, (∃ text, (expressionFormSubmit eng net w).2.alerts = w.alerts ++ [text]) ∧
      ((refreshListButtonClick eng net w).2.alerts = w.alerts ∨
        ∃ text, (refreshListButtonClick eng net w).2.alerts = w.alerts ++ [text]) ∧
      ((getDetailsButtonClick eng net w).2.alerts = w.alerts ∨
        ∃ text, (getDetailsButtonClick eng net w).2.alerts = w.alerts ++ [text])) ∧
    (∀ msg, (expressionFormSubmit eng (.rejected msg) w).2.alerts
          = w.alerts ++ ["Не удалось отправить выражение: " ++ msg] ∧
      (refreshListButtonClick eng (.rejected msg) w).2.alerts
          = w.alerts ++ ["Не удалось найти выражения: " ++ msg] ∧
      (jsTrim w.expressionIdInput ≠ "" →
        (getDetailsButtonClick eng (.rejected msg) w).2.alerts
          = w.alerts ++ ["Не удалось найти выражение: " ++ msg])) ∧
    (∀ status body, responseOk status = false →
      (∃ description, (expressionFormSubmit eng (.response status body) w).2.alerts
          = w.alerts ++ ["Не удалось отправить выражение: " ++ description]) ∧
      (refreshListButtonClick eng (.response status body) w).2.alerts
          = w.alerts ++ ["Не удалось найти выражения: " ++ ("Ошибка: " ++ natToString status)] ∧
      (jsTrim w.expressionIdInput ≠ "" →
        (getDetailsButtonClick eng (.response status body) w).2.alerts
          = w.alerts ++ ["Не удалось найти выражение: " ++ ("Ошибка: " ++ natToString status)])) ∧
    (∀ status msg, responseOk status = true →
      (expressionFormSubmit eng (.response status (.error msg)) w).2.alerts
          = w.alerts ++ ["Не удалось отправить выражение: " ++ msg] ∧
      (refreshListButtonClick eng (.response status (.error msg)) w).2.alerts
          = w.alerts ++ ["Не удалось найти выражения: " ++ msg] ∧
      (jsTrim w.expressionIdInput ≠ "" →
        (getDetailsButtonClick eng (.response status (.error msg)) w).2.alerts
          = w.alerts ++ ["Не удалось найти выражение: " ++ msg])) ∧
    (∀ status, responseOk status = true →
      (expressionFormSubmit eng (.response status (.ok .null)) w).2.alerts
          = w.alerts ++ ["Не удалось отправить выражение: " ++ eng.readOfNullish "null" "id"] ∧
      (refreshListButtonClick eng (.response status (.ok .null)) w).2.alerts
          = w.alerts ++ ["Не удалось найти выражения: " ++ eng.readOfNullish "null" "expressions"] ∧
      (jsTrim w.expressionIdInput ≠ "" →
        (getDetailsButtonClick eng (.response status (.ok .null)) w).2.alerts
          = w.alerts ++ ["Не удалось найти выражение: " ++ eng.readOfNullish "null" "expression"])) ∧
    (∀ status props, responseOk status = true →
      (lookupProp "id" props = .undefined →
        (∃ word, (expressionFormSubmit eng (.response status (.ok (.obj props))) w).2.alerts
          = w.alerts ++ ["Выражение успешно " ++ word ++ "! ID: " ++ "undefined"]) ∧
        ∀ msg, (expressionFormSubmit eng (.response status (.ok (.obj props))) w).2.alerts
          ≠ w.alerts ++ ["Не удалось отправить выражение: " ++ msg]) ∧
      (lookupProp "expressions" props = .undefined →
        (refreshListButtonClick eng (.response status (.ok (.obj props))) w).2.alerts
          = w.alerts ++ ["Не удалось найти выражения: " ++ eng.readOfNullish "undefined" "forEach"]) ∧
      (jsTrim w.expressionIdInput ≠ "" → lookupProp "expression" props = .undefined →
        (getDetailsButtonClick eng (.response status (.ok (.obj props))) w).2.alerts = w.alerts ∧
        (getDetailsButtonClick eng (.response status (.ok (.obj props))) w).2.expressionDetails
          = "")) ∧
    (∀ status props, responseOk status = true →
      (∀ s, toStringJS eng (lookupProp "id" props) = .ok s →
        (∃ word, (expressionFormSubmit eng (.response status (.ok (.obj props))) w).2.alerts
          = w.alerts ++ ["Выражение успешно " ++ word ++ "! ID: " ++ s]) ∧
        ∀ msg, (expressionFormSubmit eng (.response status (.ok (.obj props))) w).2.alerts
          ≠ w.alerts ++ ["Не удалось отправить выражение: " ++ msg]) ∧
      (∀ recs lines, lookupProp "expressions" props = .arr recs →
        List.Forall₂ (fun r line => listItemText eng r = .ok line) recs lines →
        (refreshListButtonClick eng (.response status (.ok (.obj props))) w).2.alerts = w.alerts) ∧
      (jsTrim w.expressionIdInput ≠ "" →
        (getDetailsButtonClick eng (.response status (.ok (.obj props))) w).2.alerts = w.alerts ∧
        (getDetailsButtonClick eng (.response status (.ok (.obj props))) w).2.expressionDetails
          = textContentOf (jsonStringifyIndent2 (lookupProp "expression" props)))) := by
  have hsub : ∀ status props s, responseOk status = true →
      toStringJS eng (lookupProp "id" props) = .ok s →
      (∃ word, (expressionFormSubmit eng (.response status (.ok (.obj props))) w).2.alerts
          = w.alerts ++ ["Выражение успешно " ++ word ++ "! ID: " ++ s]) ∧
        ∀ msg, (expressionFormSubmit eng (.response status (.ok (.obj props))) w).2.alerts
          ≠ w.alerts ++ ["Не удалось отправить выражение: " ++ msg] := by
    intro status props s h hs
    rw [expressionFormSubmit_accepted eng status (.obj props) _ s w h rfl hs]
    refine ⟨⟨"отрпавлено", rfl⟩, fun msg hm => ?_⟩
    have hm' : w.alerts ++ ["Выражение успешно отрпавлено! ID: " ++ s]
        = w.alerts ++ ["Не удалось отправить выражение: " ++ msg] := hm
    have hl := List.append_cancel_left hm'
    exact success_text_ne_failure_text s msg (List.head_eq_of_cons_eq hl)
  refine ⟨fun net => ⟨?_, ?_, ?_⟩, fun net => ⟨?_, ?_, ?_⟩, fun msg => ⟨?_, ?_, fun hid => ?_⟩,
    fun status body h => ⟨?_, ?_, fun hid => ?_⟩, fun status msg h => ⟨?_, ?_, fun hid => ?_⟩,
    fun status h => ⟨?_, ?_, fun hid => ?_⟩,
    fun status props h => ⟨fun hu => ?_, fun hu => ?_, fun hid hu => ?_⟩,
    fun status props h => ⟨fun s hs => hsub status props s h hs,
      fun recs lines hx hl => ?_, fun hid => ?_⟩⟩
  · rcases expressionFormSubmit_cases eng net w with ⟨s, hs⟩ | ⟨msg, hm⟩
    · rw [hs]
    · rw [hm]
  · rcases refreshListButtonClick_cases eng net w with ⟨ls, hs⟩ | ⟨msg, ls, hm⟩
    · rw [hs]
    · rw [hm]
  · by_cases hid : jsTrim w.expressionIdInput = ""
    · rw [getDetailsButtonClick_guard eng net w hid]
    · rcases getDetailsButtonClick_cases eng net w hid with ⟨t, hs⟩ | ⟨msg, hm⟩
      · rw [hs]
      · rw [hm]
  · rcases expressionFormSubmit_cases eng net w with ⟨s, hs⟩ | ⟨msg, hm⟩
    · exact ⟨_, by rw [hs]; rfl⟩
    · exact ⟨_, by rw [hm]; rfl⟩
  · rcases refreshListButtonClick_cases eng net w with ⟨ls, hs⟩ | ⟨msg, ls, hm⟩
    · exact Or.inl (by rw [hs]; rfl)
    · exact Or.inr ⟨_, by rw [hm]; rfl⟩
  · by_cases hid : jsTrim w.expressionIdInput = ""
    · exact Or.inr ⟨_, by rw [getDetailsButtonClick_guard eng net w hid]; rfl⟩
    · rcases getDetailsButtonClick_cases eng net w hid with ⟨t, hs⟩ | ⟨msg, hm⟩
      · exact Or.inl (by rw [hs]; rfl)
      · exact Or.inr ⟨_, by rw [hm]; rfl⟩
  · rw [expressionFormSubmit_rejected]; rfl
  · rw [refreshListButtonClick_rejected]; rfl
  · rw [getDetailsButtonClick_rejected eng msg w hid]; rfl
  · exact ⟨_, by rw [expressionFormSubmit_badStatus eng status body w h]; rfl⟩
  · rw [refreshListButtonClick_badStatus eng status body w h]; rfl
  · rw [getDetailsButtonClick_badStatus eng status body w h hid]; rfl
  · rw [expressionFormSubmit_jsonError eng status msg w h]; rfl
  · rw [refreshListButtonClick_jsonError eng status msg w h]; rfl
  · rw [getDetailsButtonClick_jsonError eng status msg w hid h]; rfl
  · rw [expressionFormSubmit_getError eng status .null _ w h rfl]; rfl
  · rw [refreshListButtonClick_getError eng status .null _ w h rfl]; rfl
  · rw [getDetailsButtonClick_getError eng status .null _ w hid h rfl]; rfl
  · exact hsub status props "undefined" h (by rw [hu]; rfl)
  · have hg : getProp eng (.obj props) "expressions" = .ok .undefined := by
      rw [← hu]; rfl
    simp [refreshListButtonClick, refreshListTry, h, hg, expressionsForEach, tryCatch,
      refreshListCatch, alert, issue]
  · have hg : getProp eng (.obj props) "expression" = .ok .undefined := by
      rw [← hu]; rfl
    rw [getDetailsButtonClick_shown eng status (.obj props) _ w hid h hg]
    exact ⟨rfl, rfl⟩
  · rw [refreshListButtonClick_rendered eng status props recs lines w h hx hl]; rfl
  · rw [getDetailsButtonClick_shown eng status (.obj props) _ w hid h rfl]
    exact ⟨rfl, rfl⟩

/-- C9 on the sample page and on a page with a blank identifier field: a
rejected call in the submit and list flows, completion of all three handlers
on a `null` body. -/
theorem failures_become_one_notification_witness :
    ((expressionFormSubmit v8 (.rejected "Failed to fetch")
          { sampleWorld with expressionIdInput := " " }).2.alerts
          = ["Не удалось отправить выражение: Failed to fetch"] ∧
      (refreshListButtonClick v8 (.rejected "Failed to fetch")
          { sampleWorld with expressionIdInput := " " }).2.alerts
          = ["Не удалось найти выражения: Failed to fetch"]) ∧
    (getDetailsButtonClick v8 (.rejected "Failed to fetch") sampleWorld).2.alerts
        = ["Не удалось найти выражение: Failed to fetch"] ∧
    ((expressionFormSubmit v8 (.response 200 (.ok .null)) sampleWorld).1 = .ok () ∧
      (refreshListButtonClick v8 (.response 200 (.ok .null)) sampleWorld).1 = .ok () ∧
      (getDetailsButtonClick v8 (.response 200 (.ok .null)) sampleWorld).1 = .ok ()) :=
  ⟨⟨((failures_become_one_notification v8
        { sampleWorld with expressionIdInput := " " }).2.2.1 "Failed to fetch").1,
      ((failures_become_one_notification v8
        { sampleWorld with expressionIdInput := " " }).2.2.1 "Failed to fetch").2.1⟩,
    ((failures_become_one_notification v8 sampleWorld).2.2.1 "Failed to fetch").2.2 (by decide),
    (failures_become_one_notification v8 sampleWorld).1 (.response 200 (.ok .null))⟩

/-- C9 as stated fails: for a successful response whose decoded body is an
object without the expected field, the get-by-id flow shows no notification
at all and empties the detail region. -/
theorem missing_field_not_a_failure :
    jsTrim sampleWorld.expressionIdInput = "9" ∧
    (getDetailsButtonClick v8 (.response 200 (.ok (.obj []))) sampleWorld).1 = .ok () ∧
    (getDetailsButtonClick v8 (.response 200 (.ok (.obj []))) sampleWorld).2.alerts = [] ∧
    (getDetailsButtonClick v8 (.response 200 (.ok (.obj []))) sampleWorld).2.expressionDetails
      = "" ∧
    (getDetailsButtonClick v8 (.response 200 (.ok (.obj []))) sampleWorld).2.requests
      = [detailsRequest "9"] := by
  decide

/-- C10 (as the code has it): the list region is left as it was when the
failure comes before a body is decoded (rejected call, status outside the
success range, body that is not JSON). Once a body is decoded the region is
emptied first and what it holds afterwards depends on the body alone: for
every decoded body whose `expressions` cannot be read or is not an array
(`null`, a number, a string, a boolean, an array, an object without such an
array) the region stays empty next to the failure notification; when an
element fails to render after records that do render, the region holds the
lines of those records. -/
theorem list_region_on_failure (eng : Engine) (w : World) :
    (∀ msg, (refreshListButtonClick eng (.rejected msg) w).2.expressionsList
          = w.expressionsList ∧
      (refreshListButtonClick eng (.rejected msg) w).2.alerts
          = w.alerts ++ ["Не удалось найти выражения: " ++ msg]) ∧
    (∀ status body, responseOk status = false →
      (refreshListButtonClick eng (.response status body) w).2.expressionsList
          = w.expressionsList ∧
      (refreshListButtonClick eng (.response status body) w).2.alerts
          = w.alerts ++ ["Не удалось найти выражения: " ++ ("Ошибка: " ++ natToString status)]) ∧
    (∀ status msg, responseOk status = true →
      (refreshListButtonClick eng (.response status (.error msg)) w).2.expressionsList
          = w.expressionsList ∧
      (refreshListButtonClick eng (.response status (.error msg)) w).2.alerts
          = w.alerts ++ ["Не удалось найти выражения: " ++ msg]) ∧
    (∀ status data (w' : World), responseOk status = true →
      (refreshListButtonClick eng (.response status (.ok data)) w).2.expressionsList
        = (refreshListButtonClick eng (.response status (.ok data)) w').2.expressionsList) ∧
    (∀ status data, responseOk status = true →
      (∀ items, getProp eng data "expressions" ≠ .ok (.arr items)) →
      (refreshListButtonClick eng (.response status (.ok data)) w).2.expressionsList = [] ∧
      ∃ msg, (refreshListButtonClick eng (.response status (.ok data)) w).2.alerts
          = w.alerts ++ ["Не удалось найти выражения: " ++ msg]) ∧
    (∀ status data good lines bad e rest, responseOk status = true →
      getProp eng data "expressions" = .ok (.arr (good ++ bad :: rest)) →
      List.Forall₂ (fun r line => listItemText eng r = .ok line) good lines →
      listItemText eng bad = .error e →
      (refreshListButtonClick eng (.response status (.ok data)) w).2.expressionsList
          = lines ∧
      (refreshListButtonClick eng (.response status (.ok data)) w).2.alerts
          = w.alerts ++ ["Не удалось найти выражения: " ++ e.message]) := by
  refine ⟨fun msg => ?_, fun status body h => ?_, fun status msg h => ?_,
    fun status data w' h => refreshListButtonClick_region_of_body eng status data w w' h,
    fun status data h hv => ?_, fun status data good lines bad e rest h hx hl hb => ?_⟩
  · rw [refreshListButtonClick_rejected]
    exact ⟨rfl, rfl⟩
  · rw [refreshListButtonClick_badStatus eng status body w h]
    exact ⟨rfl, rfl⟩
  · rw [refreshListButtonClick_jsonError eng status msg w h]
    exact ⟨rfl, rfl⟩
  · cases hg : getProp eng data "expressions" with
    | error e =>
      rw [refreshListButtonClick_getError eng status data e w h hg]
      exact ⟨rfl, e.message, rfl⟩
    | ok v =>
      obtain ⟨msg, hmsg⟩ := refreshListButtonClick_not_array eng status data v w h hg
        (fun items hvi => hv items (by rw [hg, hvi]))
      rw [hmsg]
      exact ⟨rfl, msg, rfl⟩
  · rw [refreshListButtonClick_cut_short eng status data good lines bad e rest w h hx hl hb]
    exact ⟨rfl, rfl⟩

/-- C10 on the sample page: a 503 leaves the stale line in place, a decoded
body that is the number 4 leaves the region empty. -/
theorem list_region_on_failure_witness :
    ((refreshListButtonClick v8 (.response 503 (.ok .null)) sampleWorld).2.expressionsList
        = ["stale line"] ∧
      (refreshListButtonClick v8 (.response 503 (.ok .null)) sampleWorld).2.alerts
        = ["Не удалось найти выражения: Ошибка: 503"]) ∧
    (refreshListButtonClick v8 (.response 200 (.ok (.num (.ofNat 4))))
        sampleWorld).2.expressionsList = [] :=
  ⟨(list_region_on_failure v8 sampleWorld).2.1 503 (.ok .null) (by decide),
    ((list_region_on_failure v8 sampleWorld).2.2.2.2.1 200 (.num (.ofNat 4)) (by decide)
      (fun items h => by cases h)).1⟩

/-- C10 as stated fails: with a stale line in the list region, a successful
response whose body has no `expressions` leaves the region empty next to the
failure notification, and one whose sequence has a `null` after a record
leaves the line of that record only. -/
theorem list_region_not_atomic :
    sampleWorld.expressionsList = ["stale line"] ∧
    (refreshListButtonClick v8 (.response 200 (.ok (.obj []))) sampleWorld).2.expressionsList
      = [] ∧
    (refreshListButtonClick v8 (.response 200 (.ok (.obj []))) sampleWorld).2.alerts
      = ["Не удалось найти выражения: Cannot read properties of undefined (reading \'forEach\')"] ∧
    (refreshListButtonClick v8 (.response 200 (.ok (.obj [("expressions", .arr [
        .obj [("id", .num (.ofNat 1)), ("expression", .str "2+2"), ("status", .str "done"),
          ("result", .num (.ofNat 4))], .null])]))) sampleWorld).2.expressionsList
      = ["ID: 1, Выражение: 2+2, Статус: done, Результат: 4"] ∧
    (refreshListButtonClick v8 (.response 200 (.ok (.obj [("expressions", .arr [
        .obj [("id", .num (.ofNat 1)), ("expression", .str "2+2"), ("status", .str "done"),
          ("result", .num (.ofNat 4))], .null])]))) sampleWorld).2.alerts
      = ["Не удалось найти выражения: Cannot read properties of null (reading \'id\')"] := by
  decide

end CalcWeb
